import Mathlib

/-!
# Verification of the astronomy engine specification against its Python source

This file gives a shallow embedding, in Lean 4, of the parts of
`src/generate/template/astronomy.py` that the frozen claims C1..C10 are about:

* the Time/DeltaT subsystem (`DeltaT_EspenakMeeus`, `_TerrestrialTime`,
  `_UniversalTime`, `Time`, `Time.AddDays`, `Time.Make`);
* the generic root finder (`_QuadInterp`, `Search`);
* the moon-phase searches (`_LongitudeOffset`, `_moon_offset`,
  `SearchMoonPhase`, `SearchMoonQuarter`, `NextMoonQuarter`);
* vector and matrix utilities (`AngleBetween`, `Pivot`);
* refraction (`RefractionAngle`, `InverseRefractionAngle`);
* the geocentric dispatcher (`GeoVector`).

Python floats are embedded as real numbers; Python `while` loops that have no
iteration bound in the source are embedded with an explicit fuel parameter
(the bounded `for` loops use their source bound as fuel).  Functions of the
ephemeris that the claims treat as opaque inputs (the lunar phase angle, the
heliocentric position functions) are taken as parameters of the embedded
search procedures, exactly as the Python code receives them through its
`func`/`context` arguments or calls them as separate routines.

Exceptions are embedded with `Except`: a Python `raise` of one of the
module's exception classes becomes `.error` with the matching `AstroError`
constructor, and a `raise` of the base class `Error(message)` becomes
`.error (.baseError message)`.
-/

namespace Astronomy

/-- The exception classes of the Python module, plus two extra constructors.
`baseError msg` is an instance of the base class `Error` itself (the module
raises the base class directly in several places, e.g.
`raise Error('Excessive iteration in Search')`).  `valueError` stands for
Python's built-in `ValueError` (raised by `datetime.datetime` on
out-of-range calendar fields); it is not an `Error` subclass at all.
`badAxis` appears in the specification's error taxonomy for `Pivot`, but the
Python source defines no `BadAxisError` class; the constructor exists only so
that claims that mention a BadAxis error can be stated, and no embedded
function ever produces it. -/
inductive AstroError where
  | baseError (msg : String)
  | dateTimeFormat
  | earthNotAllowed
  | invalidBody
  | badVector
  | internalError
  | noConverge
  | valueError
  | badAxis
  deriving DecidableEq, Repr

/-- `DeltaT_EspenakMeeus(ut)`: TT−UT in seconds, by the Espenak–Meeus
piecewise polynomials (astronomy.py lines 386-484).  Branch bodies that the
source writes with a leading negative constant (`-20 + 32*u*u`,
`-2.79 + ...`) are reassociated so that the constant appears last; the value
is unchanged. -/
noncomputable def DeltaT_EspenakMeeus (ut : ℝ) : ℝ :=
  let y := 2000 + (ut - 14) / 365.24217
  if y < -500 then
    let u := (y - 1820) / 100
    32 * (u*u) - 20
  else if y < 500 then
    let u := y / 100
    let u2 := u*u; let u3 := u*u2; let u4 := u2*u2; let u5 := u2*u3; let u6 := u3*u3
    10583.6 - 1014.41*u + 33.78311*u2 - 5.952053*u3 - 0.1798452*u4 + 0.022174192*u5 + 0.0090316521*u6
  else if y < 1600 then
    let u := (y - 1000) / 100
    let u2 := u*u; let u3 := u*u2; let u4 := u2*u2; let u5 := u2*u3; let u6 := u3*u3
    1574.2 - 556.01*u + 71.23472*u2 + 0.319781*u3 - 0.8503463*u4 - 0.005050998*u5 + 0.0083572073*u6
  else if y < 1700 then
    let u := y - 1600
    let u2 := u*u; let u3 := u*u2
    120 - 0.9808*u - 0.01532*u2 + u3/7129.0
  else if y < 1800 then
    let u := y - 1700
    let u2 := u*u; let u3 := u*u2; let u4 := u2*u2
    8.83 + 0.1603*u - 0.0059285*u2 + 0.00013336*u3 - u4/1174000
  else if y < 1860 then
    let u := y - 1800
    let u2 := u*u; let u3 := u*u2; let u4 := u2*u2; let u5 := u2*u3; let u6 := u3*u3; let u7 := u3*u4
    13.72 - 0.332447*u + 0.0068612*u2 + 0.0041116*u3 - 0.00037436*u4 + 0.0000121272*u5 - 0.0000001699*u6 + 0.000000000875*u7
  else if y < 1900 then
    let u := y - 1860
    let u2 := u*u; let u3 := u*u2; let u4 := u2*u2; let u5 := u2*u3
    7.62 + 0.5737*u - 0.251754*u2 + 0.01680668*u3 - 0.0004473624*u4 + u5/233174
  else if y < 1920 then
    let u := y - 1900
    let u2 := u*u; let u3 := u*u2; let u4 := u2*u2
    1.494119*u - 0.0598939*u2 + 0.0061966*u3 - 0.000197*u4 - 2.79
  else if y < 1941 then
    let u := y - 1920
    let u2 := u*u; let u3 := u*u2
    21.20 + 0.84493*u - 0.076100*u2 + 0.0020936*u3
  else if y < 1961 then
    let u := y - 1950
    let u2 := u*u; let u3 := u*u2
    29.07 + 0.407*u - u2/233 + u3/2547
  else if y < 1986 then
    let u := y - 1975
    let u2 := u*u; let u3 := u*u2
    45.45 + 1.067*u - u2/260 - u3/718
  else if y < 2005 then
    let u := y - 2000
    let u2 := u*u; let u3 := u*u2; let u4 := u2*u2; let u5 := u2*u3
    63.86 + 0.3345*u - 0.060374*u2 + 0.0017275*u3 + 0.000651814*u4 + 0.00002373599*u5
  else if y < 2050 then
    let u := y - 2000
    62.92 + 0.32217*u + 0.005589*(u*u)
  else if y < 2150 then
    let u := (y-1820)/100
    32*(u*u) - 0.5628*(2150 - y) - 20
  else
    let u := (y - 1820) / 100
    32 * (u*u) - 20

/-- `_TerrestrialTime(ut) = ut + DeltaT(ut)/86400` (astronomy.py line 490). -/
noncomputable def TerrestrialTime (ut : ℝ) : ℝ :=
  ut + DeltaT_EspenakMeeus ut / 86400.0

/-- The body of the `while True` loop of `_UniversalTime` (astronomy.py
lines 493-505), with an explicit fuel parameter standing for the unbounded
loop; `none` means the loop did not finish within `fuel` passes. -/
noncomputable def UniversalTimeLoop (tt : ℝ) : ℕ → ℝ → Option ℝ
  | 0, _ => none
  | fuel + 1, dt =>
    let ut := tt - dt
    let err := TerrestrialTime ut - tt
    if |err| < 1.0e-12 then some ut
    else UniversalTimeLoop tt fuel (dt + err)

/-- `_UniversalTime(tt)`: iterative inversion of `_TerrestrialTime`,
starting from `dt = TerrestrialTime(tt) - tt`. -/
noncomputable def UniversalTime (tt : ℝ) (fuel : ℕ) : Option ℝ :=
  UniversalTimeLoop tt fuel (TerrestrialTime tt - tt)

/-- The `Time` class: a pair of UT and TT day offsets from J2000
(astronomy.py lines 509-559; the lazily cached `etilt` field plays no role
in the claims and is omitted). -/
structure Time where
  ut : ℝ
  tt : ℝ

/-- `Time(ut)`: construction from a UT value, computing `tt` via
`_TerrestrialTime` (the `tt = None` branch of `Time.__init__`). -/
noncomputable def Time.fromUT (ut : ℝ) : Time :=
  ⟨ut, TerrestrialTime ut⟩

/-- `Time.AddDays(days) = Time(self.ut + days)` (astronomy.py line 665). -/
noncomputable def Time.AddDays (t : Time) (days : ℝ) : Time :=
  Time.fromUT (t.ut + days)

/-- `_QuadInterp(tm, dt, fa, fm, fb)` (astronomy.py lines 1851-1885): try
to find the unique root, in normalized coordinate `x ∈ [−1, +1]`, of the
parabola through `(−1, fa), (0, fm), (+1, fb)`; on success return the root
position `t = tm + x·dt` together with the slope `df/dt` there. -/
noncomputable def QuadInterp (tm dt fa fm fb : ℝ) : Option (ℝ × ℝ) :=
  let Q := (fb + fa)/2 - fm
  let R := (fb - fa)/2
  let S := fm
  if Q = 0 then
    -- This is a line, not a parabola.
    if R = 0 then none
    else
      let x := -S / R
      if -1 ≤ x ∧ x ≤ 1 then some (tm + x*dt, (2*Q*x + R) / dt) else none
  else
    -- It really is a parabola.  Find roots x1, x2.
    let u := R*R - 4*Q*S
    if u ≤ 0 then none
    else
      let ru := Real.sqrt u
      let x1 := (-R + ru) / (2 * Q)
      let x2 := (-R - ru) / (2 * Q)
      if -1 ≤ x1 ∧ x1 ≤ 1 then
        if -1 ≤ x2 ∧ x2 ≤ 1 then none  -- two solutions: parabola intersects twice
        else some (tm + x1*dt, (2*Q*x1 + R) / dt)
      else if -1 ≤ x2 ∧ x2 ≤ 1 then some (tm + x2*dt, (2*Q*x2 + R) / dt)
      else none

/-- The loop state of `Search` (astronomy.py lines 1964-2033): the current
bracket `[t1, t2]`, the function values `f1`, `f2` there, and the cached
midpoint value from the previous pass when `calc_fmid` was set to `False`
(`none` means `calc_fmid = True`, i.e. the midpoint value must be
recomputed). -/
structure SearchState where
  t1 : Time
  t2 : Time
  f1 : ℝ
  f2 : ℝ
  fmidCache : Option ℝ

/-- What one pass of the `Search` loop does: return a `Time` (the `return
tmid` and `return tq` statements), adopt a tighter bracket and continue
(`continue` after the quadratic-interpolation guess), bisect and continue,
or give up (`return None`). -/
inductive SearchStepResult where
  | found (t : Time)
  | tighten (st : SearchState)
  | bisect (st : SearchState)
  | noRoot

/-- One pass of the `while True` loop of `Search` (astronomy.py lines
1970-2033), after the iteration-limit check. -/
noncomputable def SearchStep (func : Time → ℝ) (dt_days : ℝ) :
    SearchState → SearchStepResult
  | ⟨t1, t2, f1, f2, fmidCache⟩ =>
    let dt := (t2.tt - t1.tt) / 2
    let tmid := t1.AddDays dt
    if |dt| < dt_days then .found tmid
    else
      let fmid := fmidCache.getD (func tmid)
      -- the bisection fallback shared by every failure path below
      let fallback : SearchStepResult :=
        if f1 < 0 ∧ 0 ≤ fmid then .bisect ⟨t1, tmid, f1, fmid, none⟩
        else if fmid < 0 ∧ 0 ≤ f2 then .bisect ⟨tmid, t2, fmid, f2, none⟩
        else .noRoot
      match QuadInterp tmid.ut (t2.ut - tmid.ut) f1 fmid f2 with
      | none => fallback
      | some (q_ut, q_df_dt) =>
        let tq := Time.fromUT q_ut
        let fq := func tq
        if q_df_dt = 0 then fallback
        else
          let dt_guess := |fq / q_df_dt|
          if dt_guess < dt_days then .found tq
          else
            -- Try guessing a tighter boundary with the interpolated root at the center.
            let dt_guess12 := 1.2 * dt_guess
            if dt_guess12 < dt / 10 then
              let tleft := tq.AddDays (-dt_guess12)
              let tright := tq.AddDays dt_guess12
              if (tleft.ut - t1.ut) * (tleft.ut - t2.ut) < 0 then
                if (tright.ut - t1.ut) * (tright.ut - t2.ut) < 0 then
                  let fleft := func tleft
                  let fright := func tright
                  if fleft < 0 ∧ 0 ≤ fright then
                    .tighten ⟨tleft, tright, fleft, fright, some fq⟩
                  else fallback
                else fallback
              else fallback
            else fallback

/-- The `Search` loop with its iteration budget: the Python counter starts
at 0, is incremented at the top of each pass, and
`raise Error('Excessive iteration in Search')` fires as soon as it exceeds
`iter_limit = 20`; so the fuel is the number of passes still allowed. -/
noncomputable def SearchLoop (func : Time → ℝ) (dt_days : ℝ) :
    ℕ → SearchState → Except AstroError (Option Time)
  | 0, _ => .error (.baseError "Excessive iteration in Search")
  | fuel + 1, st =>
    match SearchStep func dt_days st with
    | .found t => .ok (some t)
    | .noRoot => .ok none
    | .tighten st2 => SearchLoop func dt_days fuel st2
    | .bisect st2 => SearchLoop func dt_days fuel st2

/-- `Search(func, context, t1, t2, dt_tolerance_seconds)` (astronomy.py
lines 1887-2033).  The Python `func(context, t)` pair is embedded as the
single closure `func : Time → ℝ`; `.ok none` is Python's `return None`,
`.ok (some t)` a successful return, and `.error` a raised exception. -/
noncomputable def Search (func : Time → ℝ) (t1 t2 : Time)
    (dt_tolerance_seconds : ℝ) : Except AstroError (Option Time) :=
  let dt_days := |dt_tolerance_seconds / (24.0 * 3600.0)|
  SearchLoop func dt_days 20 ⟨t1, t2, func t1, func t2, none⟩

/-- `true` exactly when a `Search` pass adopts a tightened bracket (the
`continue` after a successful tight-window guess). -/
def SearchStepResult.isTighten : SearchStepResult → Bool
  | .tighten _ => true
  | _ => false

/-- Step function driving the C1 counterexample: values −3, −1, −1/5, 1 on
the UT bands below 0.3, 0.3..0.7, 0.7..0.8 and above 0.8.  On the bracket
`[Time(0), Time(1)]` the interpolated root lands near 0.75 with estimated
error ≈ 0.05, so `1.2·error ≈ 0.06` lies between `half/10 ≈ 0.05` and
`half/5 ≈ 0.1`: the specification's `/5` rule would adopt the tight window,
the code's `/10` rule bisects. -/
noncomputable def c1funcA (t : Time) : ℝ :=
  if t.ut < 0.3 then -3 else if t.ut < 0.7 then -1 else if t.ut < 0.8 then -1/5 else 1

/-- Step function driving the C1 witness: like `c1funcA` but with value
−1/14 on 0.7..0.76, making `1.2·error ≈ 0.021 < half/10`, so the code does
adopt the tight window. -/
noncomputable def c1funcB (t : Time) : ℝ :=
  if t.ut < 0.3 then -3 else if t.ut < 0.7 then -1 else if t.ut < 0.76 then -1/14 else 1

/-- The tight-window adoption condition exactly as claim C1 states it,
with the specification's threshold `1.2·error < half-interval/5`.  This
definition follows the claim's words (for comparison against the code);
everything else about the pass — the interpolated root, its slope, the
error estimate, the window `[tq ± 1.2·error]`, the strict inclusion in
`(t1, t2)` and the sign conditions — matches the code's quantities. -/
def C1SpecAdopt (func : Time → ℝ) (d : ℝ) (st : SearchState) : Prop :=
  ∃ q_ut q_df_dt : ℝ,
    QuadInterp (st.t1.AddDays ((st.t2.tt - st.t1.tt)/2)).ut
        (st.t2.ut - (st.t1.AddDays ((st.t2.tt - st.t1.tt)/2)).ut)
        st.f1 (st.fmidCache.getD (func (st.t1.AddDays ((st.t2.tt - st.t1.tt)/2)))) st.f2
      = some (q_ut, q_df_dt) ∧
    q_df_dt ≠ 0 ∧
    ¬ |func (Time.fromUT q_ut) / q_df_dt| < d ∧
    1.2 * |func (Time.fromUT q_ut) / q_df_dt| < ((st.t2.tt - st.t1.tt)/2) / 5 ∧
    (((Time.fromUT q_ut).AddDays (-(1.2 * |func (Time.fromUT q_ut) / q_df_dt|))).ut - st.t1.ut)
      * (((Time.fromUT q_ut).AddDays (-(1.2 * |func (Time.fromUT q_ut) / q_df_dt|))).ut - st.t2.ut) < 0 ∧
    (((Time.fromUT q_ut).AddDays (1.2 * |func (Time.fromUT q_ut) / q_df_dt|)).ut - st.t1.ut)
      * (((Time.fromUT q_ut).AddDays (1.2 * |func (Time.fromUT q_ut) / q_df_dt|)).ut - st.t2.ut) < 0 ∧
    func ((Time.fromUT q_ut).AddDays (-(1.2 * |func (Time.fromUT q_ut) / q_df_dt|))) < 0 ∧
    0 ≤ func ((Time.fromUT q_ut).AddDays (1.2 * |func (Time.fromUT q_ut) / q_df_dt|))
/-- The function driving the C2 and C2-witness runs of `Search`: a step
function of the UT coordinate, `-1` up to `ut = 0` and `0` afterwards.  On
the window `[Time(0), Time(1)]` every quadratic interpolation finds two
in-range roots and is rejected, so `Search` bisects on every pass and
exhausts its 20-iteration budget. -/
noncomputable def c2func (t : Time) : ℝ := if t.ut ≤ 0 then -1 else 0

/-- `_LongitudeOffset(diff)` (astronomy.py lines 119-125): the two `while`
loops move `diff` by multiples of 360 into `(-180, +180]`; this closed form
is their denotation (the unique representative of `diff` mod 360 in that
interval). -/
noncomputable def LongitudeOffset (diff : ℝ) : ℝ :=
  diff - 360 * ⌈(diff - 180) / 360⌉

/-- `MoonQuarter` (astronomy.py lines 3340-3359). -/
structure MoonQuarter where
  quarter : ℤ
  time : Time

/-- `_moon_offset(targetLon, time)` (astronomy.py line 3282), with the
lunar phase angle `MoonPhase` — an ephemeris quantity outside the scope of
the claims — taken as the parameter `mp`. -/
noncomputable def moon_offset (mp : Time → ℝ) (targetLon : ℝ) (t : Time) : ℝ :=
  LongitudeOffset (mp t - targetLon)

/-- `SearchMoonPhase(targetLon, startTime, limitDays)` (astronomy.py lines
3286-3338), parameterized by the phase-angle function `mp`. -/
noncomputable def SearchMoonPhase (mp : Time → ℝ) (targetLon : ℝ)
    (startTime : Time) (limitDays : ℝ) : Except AstroError (Option Time) :=
  let uncertainty : ℝ := 1.5
  let ya0 := moon_offset mp targetLon startTime
  let ya := if ya0 > 0 then ya0 - 360.0 else ya0  -- force searching forward in time
  let est_dt := -(29.530588 * ya) / 360.0
  let dt1 := est_dt - uncertainty
  if dt1 > limitDays then .ok none  -- not possible within the specified window
  else
    let dt2 := min limitDays (est_dt + uncertainty)
    let t1 := startTime.AddDays dt1
    let t2 := startTime.AddDays dt2
    Search (moon_offset mp targetLon) t1 t2 1.0

/-- `SearchMoonQuarter(startTime)` (astronomy.py lines 3361-3387). -/
noncomputable def SearchMoonQuarter (mp : Time → ℝ) (startTime : Time) :
    Except AstroError MoonQuarter :=
  let angle := mp startTime
  let quarter : ℤ := (1 + ⌊angle / 90.0⌋) % 4
  match SearchMoonPhase mp (90.0 * quarter) startTime 10.0 with
  | .error e => .error e
  | .ok none => .error .internalError  -- the search should never fail
  | .ok (some time) => .ok ⟨quarter, time⟩

/-- `NextMoonQuarter(mq)` (astronomy.py lines 3389-3414). -/
noncomputable def NextMoonQuarter (mp : Time → ℝ) (mq : MoonQuarter) :
    Except AstroError MoonQuarter :=
  let time := mq.time.AddDays 6.0
  match SearchMoonQuarter mp time with
  | .error e => .error e
  | .ok next_mq =>
    if next_mq.quarter ≠ (1 + mq.quarter) % 4 then .error .internalError
    else .ok next_mq

noncomputable def c7phase (t : Time) : ℝ :=
  if t.ut < 1 then -36 else if t.ut < 1.6 then -3
  else if t.ut < 1.85 then -1 else if t.ut < 1.95 then 0 else 1

def c7constPhase : Time → ℝ := fun _ => 10

noncomputable def mp8 (t : Time) : ℝ :=
  if t.ut < 7 then 45 else if t.ut < 8.5 then 87
  else if t.ut < 10 then 89 else if t.ut < 10.8 then 90 else 91

-- ===== C3: AngleBetween =====

/-- The `Vector` class (astronomy.py lines 127-156): a Cartesian position
with the time it was observed. -/
structure Vector where
  x : ℝ
  y : ℝ
  z : ℝ
  t : Time

/-- `Vector.Length() = math.sqrt(x**2 + y**2 + z**2)` (astronomy.py line 158). -/
noncomputable def Vector.Length (v : Vector) : ℝ :=
  Real.sqrt (v.x^2 + v.y^2 + v.z^2)

/-- What a call to `AngleBetween` evaluates to.  The Python function either
returns a float, or — on the short-vector path — executes
`return BadVectorError()`, which hands the caller an exception *object* as
the return value instead of raising it; `errorObject` records that outcome. -/
inductive AngleBetweenResult where
  | angle (x : ℝ)
  | errorObject (e : AstroError)

/-- `AngleBetween(a, b)` (astronomy.py lines 355-383).  Note line 377:
`return BadVectorError()` — the exception is returned, not raised. -/
noncomputable def AngleBetween (a b : Vector) : AngleBetweenResult :=
  let r := a.Length * b.Length
  if r < 1.0e-8 then .errorObject .badVector
  else
    let dot := (a.x*b.x + a.y*b.y + a.z*b.z) / r
    if dot ≤ -1.0 then .angle 180.0
    else if dot ≥ 1.0 then .angle 0.0
    else .angle (Real.arccos dot * 180 / Real.pi)

-- ===== C4: Pivot =====

/-- `RotationMatrix` (astronomy.py lines 4486-4504): a 3x3 matrix of floats. -/
structure RotationMatrix where
  rot : Fin 3 → Fin 3 → ℝ

/-- `IdentityMatrix()` (astronomy.py lines 4627-4648). -/
def IdentityMatrix : RotationMatrix :=
  ⟨fun r c => if r = c then 1 else 0⟩

/-- Reduction of a Python index expression `n % 3` to an index into a
3-element list: the axis values used by `Pivot` are `(axis+1) % 3`,
`(axis+2) % 3` and `axis` itself, all applied when `axis ∈ {0, 1, 2}`. -/
def axisFin (a : ℤ) : Fin 3 :=
  ⟨(a % 3).toNat, by omega⟩

/-- `Pivot(rotation, axis, angle)` (astronomy.py lines 4650-4712).
`axis not in [0, 1, 2]` raises the plain base class
`Error('Invalid axis {}. Must be [0, 1, 2].'.format(axis))` — the module
defines no BadAxisError.  Otherwise the matrix is post-rotated about the
chosen axis: with `i = (axis+1)%3`, `j = (axis+2)%3`, `k = axis` the source
assigns each of the nine cells of the result exactly once (for a valid axis,
`i`, `j`, `k` are pairwise distinct), which the embedding renders as a
case split on the row and column indices. -/
noncomputable def Pivot (rotation : RotationMatrix) (axis : ℤ) (angle : ℝ) :
    Except AstroError RotationMatrix :=
  if ¬ (axis = 0 ∨ axis = 1 ∨ axis = 2) then
    .error (.baseError ("Invalid axis " ++ toString axis ++ ". Must be [0, 1, 2]."))
  else
    let radians := angle * Real.pi / 180
    let c := Real.cos radians
    let s := Real.sin radians
    let i := axisFin (axis + 1)
    let j := axisFin (axis + 2)
    let k := axisFin axis
    .ok ⟨fun r col =>
      if r = i ∧ col = i then c * rotation.rot i i - s * rotation.rot i j
      else if r = i ∧ col = j then s * rotation.rot i i + c * rotation.rot i j
      else if r = i ∧ col = k then rotation.rot i k
      else if r = j ∧ col = i then c * rotation.rot j i - s * rotation.rot j j
      else if r = j ∧ col = j then s * rotation.rot j i + c * rotation.rot j j
      else if r = j ∧ col = k then rotation.rot j k
      else if r = k ∧ col = i then c * rotation.rot k i - s * rotation.rot k j
      else if r = k ∧ col = j then s * rotation.rot k i + c * rotation.rot k j
      else rotation.rot k k⟩

-- ===== C5: Time.Make =====

/-- Python `round(x)` for an exact rational input: round to the nearest
integer, ties to the even neighbour (banker's rounding). -/
def roundHalfEven (x : ℚ) : ℤ :=
  if x - ⌊x⌋ < 1/2 then ⌊x⌋
  else if 1/2 < x - ⌊x⌋ then ⌊x⌋ + 1
  else if ⌊x⌋ % 2 = 0 then ⌊x⌋ else ⌊x⌋ + 1

/-- `math.fmod(x, 1.0)` for an exact rational input: the remainder with the
sign of `x` (truncated division by 1). -/
def fmod1 (x : ℚ) : ℚ :=
  if 0 ≤ x then x - ⌊x⌋ else x - ⌈x⌉

/-- Gregorian leap-year rule, as `datetime` applies it. -/
def isLeap (y : ℤ) : Bool :=
  y % 4 = 0 && (!(y % 100 = 0) || y % 400 = 0)

/-- Number of days in the given month, as `datetime` counts them. -/
def daysInMonth (y m : ℤ) : ℤ :=
  if m = 2 then (if isLeap y then 29 else 28)
  else if m = 4 ∨ m = 6 ∨ m = 9 ∨ m = 11 then 30
  else 31

/-- Days in the months strictly before month `m`. -/
def daysBeforeMonth (y m : ℤ) : ℤ :=
  (if 1 < m then 31 else 0) + (if 2 < m then (if isLeap y then 29 else 28) else 0)
    + (if 3 < m then 31 else 0) + (if 4 < m then 30 else 0) + (if 5 < m then 31 else 0)
    + (if 6 < m then 30 else 0) + (if 7 < m then 31 else 0) + (if 8 < m then 31 else 0)
    + (if 9 < m then 30 else 0) + (if 10 < m then 31 else 0) + (if 11 < m then 30 else 0)

/-- `datetime.date.toordinal()`: the proleptic Gregorian ordinal. -/
def toOrdinal (y m d : ℤ) : ℤ :=
  365 * (y - 1) + (y - 1).fdiv 4 - (y - 1).fdiv 100 + (y - 1).fdiv 400
    + daysBeforeMonth y m + d

/-- The acceptance condition of the `datetime.datetime` constructor:
`MINYEAR <= year <= MAXYEAR`, a valid calendar day for the given month, and
each time field in its range (`ValueError` otherwise). -/
def datetimeValid (year month day hour minute second micro : ℤ) : Prop :=
  1 ≤ year ∧ year ≤ 9999 ∧ 1 ≤ month ∧ month ≤ 12 ∧ 1 ≤ day ∧ day ≤ daysInMonth year month
    ∧ 0 ≤ hour ∧ hour ≤ 23 ∧ 0 ≤ minute ∧ minute ≤ 59 ∧ 0 ≤ second ∧ second ≤ 59
    ∧ 0 ≤ micro ∧ micro ≤ 999999

instance (year month day hour minute second micro : ℤ) :
    Decidable (datetimeValid year month day hour minute second micro) := by
  rw [datetimeValid]
  infer_instance

/-- `Time.Make(year, month, day, hour, minute, second)` (astronomy.py lines
620-647): split the float `second` into banker's-rounded microseconds and a
floored whole second, hand the fields to `datetime.datetime` (which raises
the built-in `ValueError`, not `DateTimeFormatError`, on any out-of-range
field) and convert the result to days since the J2000 epoch
`datetime(2000, 1, 1, 12)`.  Calendar fields are exact integers and `second`
an exact rational here. -/
noncomputable def Time.Make (year month day hour minute : ℤ) (second : ℚ) :
    Except AstroError Time :=
  let micro := roundHalfEven (fmod1 second * 1000000)
  let second2 := ⌊second - (micro : ℚ) / 1000000⌋
  if datetimeValid year month day hour minute second2 micro then
    .ok (Time.fromUT (((((toOrdinal year month day - toOrdinal 2000 1 1) * 86400
        + (hour - 12) * 3600 + minute * 60 + second2 : ℤ) + (micro : ℚ) / 1000000 : ℚ)
        / 86400 : ℚ)))
  else .error .valueError

-- ===== C9: RefractionAngle / InverseRefractionAngle =====

/-- The `Refraction` enumeration (astronomy.py lines 2437-2452). -/
inductive Refraction where
  | Airless
  | Normal
  | JplHorizons
  deriving DecidableEq

/-- `RefractionAngle(refraction, altitude)` (astronomy.py lines 2642-2697).
An altitude outside [-90, +90] returns 0.0 immediately; the
`raise Error('Inalid refraction option')` arm of the source is unreachable
for the three members of the `Refraction` enumeration and has no
counterpart here. -/
noncomputable def RefractionAngle (refraction : Refraction) (altitude : ℝ) : ℝ :=
  if altitude < -90.0 ∨ altitude > 90.0 then 0.0
  else
    if refraction = .Normal ∨ refraction = .JplHorizons then
      let hd := max altitude (-1.0)
      let refr := (1.02 / Real.tan ((hd + 10.3/(hd + 5.11)) * Real.pi / 180)) / 60.0
      if refraction = .Normal ∧ altitude < -1.0 then refr * ((altitude + 90.0) / 89.0)
      else refr
    else 0.0

/-- The unbounded `while True` loop of `InverseRefractionAngle`
(astronomy.py lines 2734-2740), with fuel; `none` is non-termination within
the fuel. -/
noncomputable def InverseRefractionLoop (refraction : Refraction) (bent_altitude : ℝ) :
    ℕ → ℝ → Option ℝ
  | 0, _ => none
  | fuel + 1, altitude =>
    let diff := (altitude + RefractionAngle refraction altitude) - bent_altitude
    if |diff| < 1.0e-14 then some (altitude - bent_altitude)
    else InverseRefractionLoop refraction bent_altitude fuel (altitude - diff)

/-- `InverseRefractionAngle(refraction, bent_altitude)` (astronomy.py lines
2699-2740). -/
noncomputable def InverseRefractionAngle (refraction : Refraction) (bent_altitude : ℝ)
    (fuel : ℕ) : Option ℝ :=
  if bent_altitude < -90.0 ∨ bent_altitude > 90.0 then some 0.0
  else InverseRefractionLoop refraction bent_altitude fuel
    (bent_altitude - RefractionAngle refraction bent_altitude)

-- ===== C10: GeoVector =====

/-- The `Body` enumeration (astronomy.py lines 219-252). -/
inductive Body where
  | Invalid
  | Mercury
  | Venus
  | Earth
  | Mars
  | Jupiter
  | Saturn
  | Uranus
  | Neptune
  | Pluto
  | Sun
  | Moon
  | EMB
  | SSB
  deriving DecidableEq

/-- `C_AUDAY` (astronomy.py line 40): the speed of light in au/day. -/
noncomputable def C_AUDAY : ℝ := 173.1446326846693

/-- The bounded light-travel correction loop of `GeoVector` (astronomy.py
lines 2168-2194): `for _ in range(10)`, so fuel 10, and fuel exhaustion is
the `raise Error('Light-travel time solver did not converge: ...')` (the
interpolated `dt` of the message is dropped).  The `earth` argument is the
Earth position computed once before the loop; the source only assigns it
when `aberration` is false, and the loop only reads it in that case. -/
noncomputable def GeoVectorLoop (helioVector : Body → Time → Vector)
    (calcEarth : Time → Vector) (body : Body) (time : Time) (aberration : Bool)
    (earth : Vector) : ℕ → Time → Except AstroError Vector
  | 0, _ => .error (.baseError "Light-travel time solver did not converge")
  | fuel + 1, ltime =>
    let h := helioVector body ltime
    let earth2 := if aberration then calcEarth ltime else earth
    let geo : Vector := ⟨h.x - earth2.x, h.y - earth2.y, h.z - earth2.z, time⟩
    let ltime2 := time.AddDays (-geo.Length / C_AUDAY)
    if |ltime2.tt - ltime.tt| < 1.0e-9 then .ok geo
    else GeoVectorLoop helioVector calcEarth body time aberration earth fuel ltime2

/-- `GeoVector(body, time, aberration)` (astronomy.py lines 2123-2194),
parameterized by the ephemeris routines `GeoMoon`, `HelioVector` and
`_CalcEarth` that it dispatches to. -/
noncomputable def GeoVector (geoMoon : Time → Vector) (helioVector : Body → Time → Vector)
    (calcEarth : Time → Vector) (body : Body) (time : Time) (aberration : Bool) :
    Except AstroError Vector :=
  if body = Body.Moon then .ok (geoMoon time)
  else if body = Body.Earth then .ok ⟨0.0, 0.0, 0.0, time⟩
  else GeoVectorLoop helioVector calcEarth body time aberration (calcEarth time) 10 time


/-- On `-5000 ≤ ut ≤ 1800` the Espenak–Meeus year `y` lies in
`[1986, 2005)`, so `DeltaT_EspenakMeeus` evaluates its 1986–2005 branch. -/
theorem deltaT_eq_poly2005 (w : ℝ) (h1 : -5000 ≤ w) (h2 : w ≤ 1800) :
    DeltaT_EspenakMeeus w =
      63.86 + 0.3345*((w - 14)/365.24217) - 0.060374*((w - 14)/365.24217)^2
        + 0.0017275*((w - 14)/365.24217)^3 + 0.000651814*((w - 14)/365.24217)^4
        + 0.00002373599*((w - 14)/365.24217)^5 := by
  have hql : (-14 : ℝ) ≤ (w - 14)/365.24217 := by
    rw [le_div_iff₀ (by norm_num : (0:ℝ) < 365.24217)]
    linarith
  have hqh : (w - 14)/365.24217 < 5 := by
    rw [div_lt_iff₀ (by norm_num : (0:ℝ) < 365.24217)]
    linarith
  rw [DeltaT_EspenakMeeus]
  rw [if_neg (by push_neg; linarith), if_neg (by push_neg; linarith),
    if_neg (by push_neg; linarith), if_neg (by push_neg; linarith),
    if_neg (by push_neg; linarith), if_neg (by push_neg; linarith),
    if_neg (by push_neg; linarith), if_neg (by push_neg; linarith),
    if_neg (by push_neg; linarith), if_neg (by push_neg; linarith),
    if_neg (by push_neg; linarith), if_pos (by linarith)]
  ring

/-- Arithmetic tail of `terrestrialTime_lipschitz`. -/
theorem tt_lip_final (vu E : ℝ) (h0 : (0:ℝ) ≤ vu) (hE : (0.29:ℝ) ≤ E) (hE2 : E ≤ 0.38) :
    vu * (1 - 1.0e-6) ≤ vu + (vu/365.24217)*E/86400 ∧
    vu + (vu/365.24217)*E/86400 ≤ vu * (1 + 1.0e-6) := by
  constructor
  · have hX : (0:ℝ) ≤ vu/365.24217*E/86400 := by
      have h1 : (0:ℝ) ≤ vu/365.24217 := by positivity
      have h2 : (0:ℝ) ≤ E := by linarith
      positivity
    linarith
  · have key : vu/365.24217*E/86400 ≤ vu * 1.0e-6 := by
      rw [div_mul_eq_mul_div, div_div,
        div_le_iff₀ (by norm_num : (0:ℝ) < 365.24217 * 86400)]
      nlinarith [mul_le_mul_of_nonneg_left hE2 h0]
    linarith

set_option maxHeartbeats 1000000 in
/-- On `[-100, 100]` (days from J2000) the map `ut ↦ TerrestrialTime ut` is
increasing with slope within `1e-6` of 1: ΔT is a single slowly varying
polynomial branch there. -/
theorem terrestrialTime_lipschitz (u v : ℝ)
    (hu : -100 ≤ u) (huv : u ≤ v) (hv : v ≤ 100) :
    (v - u) * (1 - 1.0e-6) ≤ TerrestrialTime v - TerrestrialTime u ∧
    TerrestrialTime v - TerrestrialTime u ≤ (v - u) * (1 + 1.0e-6) := by
  have ha1 : -(0.32 : ℝ) ≤ (u - 14)/365.24217 := by
    rw [le_div_iff₀ (by norm_num : (0:ℝ) < 365.24217)]; linarith
  have ha2 : (u - 14)/365.24217 ≤ 0.32 := by
    rw [div_le_iff₀ (by norm_num : (0:ℝ) < 365.24217)]; linarith
  have hb1 : -(0.32 : ℝ) ≤ (v - 14)/365.24217 := by
    rw [le_div_iff₀ (by norm_num : (0:ℝ) < 365.24217)]; linarith
  have hb2 : (v - 14)/365.24217 ≤ 0.32 := by
    rw [div_le_iff₀ (by norm_num : (0:ℝ) < 365.24217)]; linarith
  set a := (u - 14)/365.24217 with ha_def
  set b := (v - 14)/365.24217 with hb_def
  have hba : b - a = (v - u)/365.24217 := by
    rw [ha_def, hb_def]; ring
  have hvu : (0:ℝ) ≤ v - u := by linarith
  -- interval bounds on powers and products of the normalized years a, b
  have haa : a^2 ≤ 0.1024 := by linarith [mul_nonneg (by linarith : (0:ℝ) ≤ 0.32 - a) (by linarith : (0:ℝ) ≤ a + 0.32)]
  have hbb : b^2 ≤ 0.1024 := by linarith [mul_nonneg (by linarith : (0:ℝ) ≤ 0.32 - b) (by linarith : (0:ℝ) ≤ b + 0.32)]
  have hab1 : a*b ≤ 0.1024 := by nlinarith [sq_nonneg (a - b)]
  have hab2 : -(0.1024:ℝ) ≤ a*b := by nlinarith [sq_nonneg (a + b)]
  have h3a : a^2*b ≤ 0.033 := by linarith [mul_nonneg (by linarith : (0:ℝ) ≤ 0.32 - b) (sq_nonneg a)]
  have h3a2 : -(0.033:ℝ) ≤ a^2*b := by linarith [mul_nonneg (by linarith : (0:ℝ) ≤ b + 0.32) (sq_nonneg a)]
  have h3b : a*b^2 ≤ 0.033 := by linarith [mul_nonneg (by linarith : (0:ℝ) ≤ 0.32 - a) (sq_nonneg b)]
  have h3b2 : -(0.033:ℝ) ≤ a*b^2 := by linarith [mul_nonneg (by linarith : (0:ℝ) ≤ a + 0.32) (sq_nonneg b)]
  have h3c : a^3 ≤ 0.033 := by linarith [mul_nonneg (by linarith : (0:ℝ) ≤ 0.32 - a) (sq_nonneg a)]
  have h3c2 : -(0.033:ℝ) ≤ a^3 := by linarith [mul_nonneg (by linarith : (0:ℝ) ≤ a + 0.32) (sq_nonneg a)]
  have h3d : b^3 ≤ 0.033 := by linarith [mul_nonneg (by linarith : (0:ℝ) ≤ 0.32 - b) (sq_nonneg b)]
  have h3d2 : -(0.033:ℝ) ≤ b^3 := by linarith [mul_nonneg (by linarith : (0:ℝ) ≤ b + 0.32) (sq_nonneg b)]
  have h4a : a^4 ≤ 0.0105 := by linarith [mul_nonneg (by linarith [haa] : (0:ℝ) ≤ 0.1024 - a^2) (sq_nonneg a)]
  have h4b : b^4 ≤ 0.0105 := by linarith [mul_nonneg (by linarith [hbb] : (0:ℝ) ≤ 0.1024 - b^2) (sq_nonneg b)]
  have h4ab : a^2*b^2 ≤ 0.0105 := by linarith [mul_nonneg (by linarith [hab1] : (0:ℝ) ≤ 0.1024 - a*b) (by linarith [hab2] : (0:ℝ) ≤ a*b + 0.1024)]
  have h4ab0 : (0:ℝ) ≤ a^2*b^2 := by positivity
  have h4c : a^3*b ≤ 0.0105 := by linarith [mul_nonneg (by linarith [hab1] : (0:ℝ) ≤ 0.1024 - a*b) (sq_nonneg a)]
  have h4c2 : -(0.0105:ℝ) ≤ a^3*b := by linarith [mul_nonneg (by linarith [hab2] : (0:ℝ) ≤ a*b + 0.1024) (sq_nonneg a)]
  have h4d : a*b^3 ≤ 0.0105 := by linarith [mul_nonneg (by linarith [hab1] : (0:ℝ) ≤ 0.1024 - a*b) (sq_nonneg b)]
  have h4d2 : -(0.0105:ℝ) ≤ a*b^3 := by linarith [mul_nonneg (by linarith [hab2] : (0:ℝ) ≤ a*b + 0.1024) (sq_nonneg b)]
  -- the divided-difference factor E, with E close to 0.3345
  set E := 0.3345 - 0.060374*(a + b) + 0.0017275*(a^2 + a*b + b^2)
      + 0.000651814*(a^3 + a^2*b + a*b^2 + b^3)
      + 0.00002373599*(a^4 + a^3*b + a^2*b^2 + a*b^3 + b^4) with hE_def
  have h4a0 : (0:ℝ) ≤ a^4 := by positivity
  have h4b0 : (0:ℝ) ≤ b^4 := by positivity
  have hE_lo : (0.29:ℝ) ≤ E := by
    rw [hE_def]
    linarith [sq_nonneg a, sq_nonneg b]
  have hE_hi : E ≤ 0.38 := by
    rw [hE_def]
    linarith [sq_nonneg a, sq_nonneg b]
  have hdiff : TerrestrialTime v - TerrestrialTime u
      = (v - u) + ((v - u)/365.24217) * E / 86400 := by
    rw [TerrestrialTime, TerrestrialTime,
      deltaT_eq_poly2005 u (by linarith) (by linarith),
      deltaT_eq_poly2005 v (by linarith) (by linarith), ← ha_def, ← hb_def,
      ← hba, hE_def]
    ring
  rw [hdiff]
  exact tt_lip_final (v - u) E hvu hE_lo hE_hi

/-- Claim C6 (amended): for every UT in [−73000, +73000], whenever the
iterative TT→UT solver `_UniversalTime` returns a value `r` for
`tt = TerrestrialTime ut`, that value reproduces `tt` to within the solver's
residual tolerance: `|TerrestrialTime r − TerrestrialTime ut| < 1e-12` days.
The round-trip error in UT itself is NOT in general below 1e-14 days (see
the counterexample theorem), so the claim's 1e-12-exponent is what the code
guarantees, not 1e-14. -/
theorem c6_time_inversion_residual (ut : ℝ) (fuel : ℕ) (r : ℝ)
    (hlo : -73000 ≤ ut) (hhi : ut ≤ 73000)
    (hrun : UniversalTime (TerrestrialTime ut) fuel = some r) :
    |TerrestrialTime r - TerrestrialTime ut| < 1.0e-12 := by
  clear hlo hhi
  rw [UniversalTime] at hrun
  generalize TerrestrialTime (TerrestrialTime ut) - TerrestrialTime ut = dt0 at hrun
  induction fuel generalizing dt0 with
  | zero => exact absurd hrun (by simp [UniversalTimeLoop])
  | succ n ih =>
    rw [UniversalTimeLoop] at hrun
    by_cases h : |TerrestrialTime (TerrestrialTime ut - dt0) - TerrestrialTime ut| < 1.0e-12
    · rw [if_pos h] at hrun
      obtain rfl : TerrestrialTime ut - dt0 = r := Option.some_injective _ hrun
      exact h
    · rw [if_neg h] at hrun
      exact ih _ hrun

set_option maxHeartbeats 1000000 in
/-- Witness for C6: at `ut = −26064.290938` (the year 1928.6, near a flat
point of ΔT) the solver stops on its very first pass, and the theorem's
conclusion holds there. -/
theorem c6_time_inversion_residual_witness :
    ((-73000 : ℝ) ≤ -26064290938/1000000 ∧ (-26064290938/1000000 : ℝ) ≤ 73000 ∧
      UniversalTime (TerrestrialTime (-26064290938/1000000)) 1
        = some (2 * TerrestrialTime (-26064290938/1000000)
            - TerrestrialTime (TerrestrialTime (-26064290938/1000000)))) ∧
    |TerrestrialTime (2 * TerrestrialTime (-26064290938/1000000)
        - TerrestrialTime (TerrestrialTime (-26064290938/1000000)))
      - TerrestrialTime (-26064290938/1000000)| < 1.0e-12 := by
  have hrun : UniversalTime (TerrestrialTime (-26064290938/1000000 : ℝ)) 1
      = some (2 * TerrestrialTime (-26064290938/1000000)
          - TerrestrialTime (TerrestrialTime (-26064290938/1000000))) := by
    rw [UniversalTime, UniversalTimeLoop]
    rw [if_pos ?_]
    · ring_nf
    · rw [abs_lt]
      unfold TerrestrialTime DeltaT_EspenakMeeus
      norm_num
  exact ⟨⟨by norm_num, by norm_num, hrun⟩,
    c6_time_inversion_residual _ 1 _ (by norm_num) (by norm_num) hrun⟩

set_option maxHeartbeats 1000000 in
/-- Counterexample for C6 as stated: at `ut = −25552.9519` (the year 1930.0
exactly) the solver terminates, but the recovered UT differs from the
original by about `4.34e-13` days, which is not below `1e-14`. -/
theorem c6_time_inversion_spec_false :
    UniversalTime (TerrestrialTime (-255529519/10000 : ℝ)) 3
      = some (2 * TerrestrialTime (-255529519/10000)
          - TerrestrialTime (TerrestrialTime (-255529519/10000))) ∧
    ¬ |(2 * TerrestrialTime (-255529519/10000 : ℝ)
          - TerrestrialTime (TerrestrialTime (-255529519/10000)))
        - (-255529519/10000)| < 1.0e-14 := by
  constructor
  · rw [UniversalTime, UniversalTimeLoop]
    rw [if_pos ?_]
    · ring_nf
    · rw [abs_lt]
      unfold TerrestrialTime DeltaT_EspenakMeeus
      norm_num
  · rw [not_lt, le_abs]
    left
    unfold TerrestrialTime DeltaT_EspenakMeeus
    norm_num

/-- `_QuadInterp` on the value pattern `(fa, fm, fb) = (−1, 0, 0)`: the
parabola has its two roots at `x = 0` and `x = 1`, both in range, so the
interpolation is rejected regardless of the time arguments. -/
theorem quadInterp_neg1_0_0 (tm dtu : ℝ) : QuadInterp tm dtu (-1) 0 0 = none := by
  have h4 : Real.sqrt 4 = 2 := by
    rw [show (4:ℝ) = 2^2 by norm_num]
    exact Real.sqrt_sq (by norm_num)
  rw [QuadInterp]
  norm_num [h4]


theorem c2func_nonpos (t : Time) (h : t.ut ≤ 0) : c2func t = -1 := if_pos h

theorem c2func_pos (t : Time) (h : 0 < t.ut) : c2func t = 0 := if_neg (not_le.mpr h)

/-- The C2 run: with `c2func` on a bracket `[Time(0), t2]` whose right end
sits in `(0, 1]` (tracked by the power-of-0.49/0.51 envelope), every pass of
the `Search` loop bisects, so any remaining fuel `n ≤ 20` is exhausted and
the generic `Error` is raised. -/
theorem c2_bisection_run (d : ℝ) (hd0 : 0 < d) (hd : d ≤ 1/86400000) :
    ∀ (n : ℕ) (t2 : Time), n ≤ 20 →
      (0.49:ℝ)^(20 - n) ≤ t2.ut → t2.ut ≤ (0.51:ℝ)^(20 - n) →
      t2.tt = TerrestrialTime t2.ut →
      SearchLoop c2func d n ⟨Time.fromUT 0, t2, -1, 0, none⟩
        = .error (.baseError "Excessive iteration in Search") := by
  intro n
  induction n with
  | zero => intro t2 _ _ _ _; rfl
  | succ n ih =>
    intro t2 hn h1 h2 htt
    have hk : 20 - (n + 1) ≤ 19 := by omega
    have hks : 20 - n = (20 - (n+1)) + 1 := by omega
    set k := 20 - (n + 1) with hk_def
    have hposk : (0:ℝ) < 0.49^k := pow_pos (by norm_num) k
    have h49_20 : (0.49:ℝ)^k ≥ 0.49^19 :=
      pow_le_pow_of_le_one (by norm_num) (by norm_num) hk
    have h51le : (0.51:ℝ)^k ≤ 1 := pow_le_one₀ (by norm_num) (by norm_num)
    have hu2pos : 0 < t2.ut := lt_of_lt_of_le hposk h1
    have hu2le : t2.ut ≤ 1 := h2.trans h51le
    have hlip := terrestrialTime_lipschitz 0 t2.ut (by norm_num) hu2pos.le (by linarith)
    have ht1tt : (Time.fromUT 0).tt = TerrestrialTime 0 := rfl
    set dt := (t2.tt - (Time.fromUT 0).tt)/2 with hdt_def
    have hdtlo : 0.49 * t2.ut ≤ dt := by
      rw [hdt_def, ht1tt, htt]
      have := hlip.1
      linarith
    have hdthi : dt ≤ 0.51 * t2.ut := by
      rw [hdt_def, ht1tt, htt]
      have := hlip.2
      linarith
    have hdtpos : 0 < dt := lt_of_lt_of_le (by positivity) hdtlo
    have hdtd : ¬ |dt| < d := by
      rw [abs_of_pos hdtpos, not_lt]
      calc d ≤ 1/86400000 := hd
        _ ≤ 0.49 * 0.49^19 := by norm_num
        _ ≤ 0.49 * (0.49^k) := by nlinarith
        _ ≤ 0.49 * t2.ut := by nlinarith
        _ ≤ dt := hdtlo
    have hstep : SearchStep c2func d ⟨Time.fromUT 0, t2, -1, 0, none⟩
        = .bisect ⟨Time.fromUT 0, (Time.fromUT 0).AddDays dt, -1, 0, none⟩ := by
      rw [SearchStep]
      rw [if_neg hdtd]
      have hfmid : c2func ((Time.fromUT 0).AddDays dt) = 0 := by
        apply c2func_pos
        show (Time.fromUT ((Time.fromUT 0).ut + dt)).ut > 0
        show (Time.fromUT 0).ut + dt > 0
        show (0:ℝ) + dt > 0
        linarith
      simp only [Option.getD, hfmid, quadInterp_neg1_0_0]
      rw [if_pos ⟨by norm_num, le_refl 0⟩]
    rw [SearchLoop, hstep]
    have haddut : ((Time.fromUT 0).AddDays dt).ut = dt := by
      show (Time.fromUT 0).ut + dt = dt
      show (0:ℝ) + dt = dt
      ring
    apply ih
    · omega
    · rw [haddut, hks, pow_succ]
      calc (0.49:ℝ)^k * 0.49 = 0.49 * 0.49^k := by ring
        _ ≤ 0.49 * t2.ut := by nlinarith
        _ ≤ dt := hdtlo
    · rw [haddut, hks, pow_succ]
      calc dt ≤ 0.51 * t2.ut := hdthi
        _ ≤ 0.51 * 0.51^k := by nlinarith
        _ = 0.51^k * 0.51 := by ring
    · rfl


/-- The only exception the embedded `Search` loop ever raises is the generic
`Error('Excessive iteration in Search')` fired by the iteration cap. -/
theorem searchLoop_error_is_base (func : Time → ℝ) (d : ℝ) :
    ∀ (n : ℕ) (st : SearchState) (e : AstroError),
      SearchLoop func d n st = .error e →
      e = .baseError "Excessive iteration in Search" := by
  intro n
  induction n with
  | zero =>
    intro st e h
    rw [SearchLoop] at h
    cases h
    rfl
  | succ n ih =>
    intro st e h
    rw [SearchLoop] at h
    cases hs : SearchStep func d st with
    | found t => rw [hs] at h; exact absurd h (by simp)
    | noRoot => rw [hs] at h; exact absurd h (by simp)
    | tighten st2 => rw [hs] at h; exact ih st2 e h
    | bisect st2 => rw [hs] at h; exact ih st2 e h


/-- Claim C2 (amended): for every `func`, `t1`, `t2` and tolerance, when
`Search` fails after its 20-iteration budget it raises the plain base-class
exception `Error('Excessive iteration in Search')` — not the distinct
`NoConvergeError` the spec names. -/
theorem c2_search_error (func : Time → ℝ) (t1 t2 : Time)
    (tol : ℝ) (e : AstroError) (h : Search func t1 t2 tol = .error e) :
    e = .baseError "Excessive iteration in Search" := by
  rw [Search] at h
  exact searchLoop_error_is_base func _ 20 _ e h


/-- A concrete non-converging run of `Search`: `c2func` on `[Time(0),
Time(1)]` with a 0.001-second tolerance exceeds 20 iterations. -/
theorem search_c2func_run :
    Search c2func (Time.fromUT 0) (Time.fromUT 1) 0.001
      = .error (.baseError "Excessive iteration in Search") := by
  rw [Search]
  have hd : |(0.001:ℝ) / (24.0 * 3600.0)| = 1/86400000 := by
    rw [abs_of_pos (by norm_num)]
    norm_num
  have hf1 : c2func (Time.fromUT 0) = -1 := c2func_nonpos _ (le_refl 0)
  have hf2 : c2func (Time.fromUT 1) = 0 := c2func_pos _ (by norm_num : (0:ℝ) < 1)
  rw [hd, hf1, hf2]
  have hut : (Time.fromUT 1).ut = 1 := rfl
  exact c2_bisection_run _ (by norm_num) (by norm_num) 20 _ (by norm_num)
    (by rw [hut]; norm_num) (by rw [hut]; norm_num) rfl


/-- Counterexample for C2 as stated: this failing `Search` run raises the
base `Error`, which is not the `NoConvergeError` class. -/
theorem c2_counterexample :
    Search c2func (Time.fromUT 0) (Time.fromUT 1) 0.001
        = .error (.baseError "Excessive iteration in Search") ∧
      AstroError.baseError "Excessive iteration in Search" ≠ AstroError.noConverge := by
  exact ⟨search_c2func_run, by simp⟩


/-- Witness for C2 (amended): the same concrete run discharges the
hypothesis of `c2_search_error`, whose conclusion identifies the raised
exception. -/
theorem c2_witness :
    Search c2func (Time.fromUT 0) (Time.fromUT 1) 0.001
        = .error (.baseError "Excessive iteration in Search") ∧
      AstroError.baseError "Excessive iteration in Search"
        = AstroError.baseError "Excessive iteration in Search" :=
  ⟨search_c2func_run,
    c2_search_error c2func (Time.fromUT 0) (Time.fromUT 1) 0.001 _ search_c2func_run⟩

/-- Unfolding lemmas for the `Time` constructors. -/
theorem fromUT_ut (x : ℝ) : (Time.fromUT x).ut = x := rfl

theorem fromUT_tt (x : ℝ) : (Time.fromUT x).tt = TerrestrialTime x := rfl

theorem addDays_ut (t : Time) (d : ℝ) : (t.AddDays d).ut = t.ut + d := rfl

/-- `_QuadInterp` on `(fa, fm, fb) = (−3, −1, 1)`: the three points are
collinear, so the line branch fires with unique root `x = 1/2` and slope
`R/dt = 2/dt`. -/
theorem quadInterp_m3_m1_1 (tm dtu : ℝ) :
    QuadInterp tm dtu (-3) (-1) 1 = some (tm + (1/2)*dtu, 2/dtu) := by
  rw [QuadInterp]
  norm_num

/-- Claim C1 (amended): in a `Search` pass that reaches the
quadratic-interpolation stage with a unique in-range root of nonzero slope
and a not-yet-converged error estimate, the tightened window
`[tq − 1.2·error, tq + 1.2·error]` is adopted exactly when
`1.2·error < half-interval/10` (the code divides the half-interval by 10,
not by 5 as the spec says) and the window is strictly inside `(t1, t2)`
with `f(tleft) < 0 ≤ f(tright)`. -/
theorem c1_tight_window_iff (func : Time → ℝ) (d : ℝ) (st : SearchState)
    (q_ut q_df_dt : ℝ)
    (hdt : ¬ |(st.t2.tt - st.t1.tt)/2| < d)
    (hq : QuadInterp (st.t1.AddDays ((st.t2.tt - st.t1.tt)/2)).ut
            (st.t2.ut - (st.t1.AddDays ((st.t2.tt - st.t1.tt)/2)).ut)
            st.f1 (st.fmidCache.getD (func (st.t1.AddDays ((st.t2.tt - st.t1.tt)/2)))) st.f2
          = some (q_ut, q_df_dt))
    (hq0 : q_df_dt ≠ 0)
    (herr : ¬ |func (Time.fromUT q_ut) / q_df_dt| < d) :
    (SearchStep func d st
      = .tighten ⟨(Time.fromUT q_ut).AddDays (-(1.2 * |func (Time.fromUT q_ut) / q_df_dt|)),
          (Time.fromUT q_ut).AddDays (1.2 * |func (Time.fromUT q_ut) / q_df_dt|),
          func ((Time.fromUT q_ut).AddDays (-(1.2 * |func (Time.fromUT q_ut) / q_df_dt|))),
          func ((Time.fromUT q_ut).AddDays (1.2 * |func (Time.fromUT q_ut) / q_df_dt|)),
          some (func (Time.fromUT q_ut))⟩)
    ↔ (1.2 * |func (Time.fromUT q_ut) / q_df_dt| < ((st.t2.tt - st.t1.tt)/2) / 10 ∧
        (((Time.fromUT q_ut).AddDays (-(1.2 * |func (Time.fromUT q_ut) / q_df_dt|))).ut - st.t1.ut)
          * (((Time.fromUT q_ut).AddDays (-(1.2 * |func (Time.fromUT q_ut) / q_df_dt|))).ut - st.t2.ut) < 0 ∧
        (((Time.fromUT q_ut).AddDays (1.2 * |func (Time.fromUT q_ut) / q_df_dt|)).ut - st.t1.ut)
          * (((Time.fromUT q_ut).AddDays (1.2 * |func (Time.fromUT q_ut) / q_df_dt|)).ut - st.t2.ut) < 0 ∧
        func ((Time.fromUT q_ut).AddDays (-(1.2 * |func (Time.fromUT q_ut) / q_df_dt|))) < 0 ∧
        0 ≤ func ((Time.fromUT q_ut).AddDays (1.2 * |func (Time.fromUT q_ut) / q_df_dt|))) := by
  obtain ⟨t1, t2, f1, f2, mc⟩ := st
  simp only at hdt hq herr ⊢
  rw [SearchStep]
  rw [if_neg hdt]
  simp only []
  rw [hq]
  simp only []
  rw [if_neg hq0, if_neg herr]
  by_cases h10 : 1.2 * |func (Time.fromUT q_ut) / q_df_dt| < ((t2.tt - t1.tt)/2) / 10
  · rw [if_pos h10]
    by_cases hL : (((Time.fromUT q_ut).AddDays (-(1.2 * |func (Time.fromUT q_ut) / q_df_dt|))).ut - t1.ut)
        * (((Time.fromUT q_ut).AddDays (-(1.2 * |func (Time.fromUT q_ut) / q_df_dt|))).ut - t2.ut) < 0
    · rw [if_pos hL]
      by_cases hR : (((Time.fromUT q_ut).AddDays (1.2 * |func (Time.fromUT q_ut) / q_df_dt|)).ut - t1.ut)
          * (((Time.fromUT q_ut).AddDays (1.2 * |func (Time.fromUT q_ut) / q_df_dt|)).ut - t2.ut) < 0
      · rw [if_pos hR]
        by_cases hS : func ((Time.fromUT q_ut).AddDays (-(1.2 * |func (Time.fromUT q_ut) / q_df_dt|))) < 0
            ∧ 0 ≤ func ((Time.fromUT q_ut).AddDays (1.2 * |func (Time.fromUT q_ut) / q_df_dt|))
        · rw [if_pos hS]
          constructor
          · intro _; exact ⟨h10, hL, hR, hS.1, hS.2⟩
          · intro _; rfl
        · rw [if_neg hS]
          constructor
          · intro hcon
            exfalso
            split_ifs at hcon
          · intro hcon
            exact absurd ⟨hcon.2.2.2.1, hcon.2.2.2.2⟩ hS
      · rw [if_neg hR]
        constructor
        · intro hcon
          exfalso
          split_ifs at hcon
        · intro hcon
          exact absurd hcon.2.2.1 hR
    · rw [if_neg hL]
      constructor
      · intro hcon
        exfalso
        split_ifs at hcon
      · intro hcon
        exact absurd hcon.2.1 hL
  · rw [if_neg h10]
    constructor
    · intro hcon
      exfalso
      split_ifs at hcon
    · intro hcon
      exact absurd hcon.1 h10

theorem c1funcA_band1 (t : Time) (h : t.ut < 0.3) : c1funcA t = -3 := if_pos h

theorem c1funcA_band2 (t : Time) (h1 : 0.3 ≤ t.ut) (h2 : t.ut < 0.7) : c1funcA t = -1 := by
  rw [c1funcA, if_neg (not_lt.mpr h1), if_pos h2]

theorem c1funcA_band3 (t : Time) (h1 : 0.7 ≤ t.ut) (h2 : t.ut < 0.8) : c1funcA t = -1/5 := by
  rw [c1funcA, if_neg (not_lt.mpr (by linarith : (0.3:ℝ) ≤ t.ut)),
    if_neg (not_lt.mpr h1), if_pos h2]

theorem c1funcA_band4 (t : Time) (h1 : 0.8 ≤ t.ut) : c1funcA t = 1 := by
  rw [c1funcA, if_neg (not_lt.mpr (by linarith : (0.3:ℝ) ≤ t.ut)),
    if_neg (not_lt.mpr (by linarith : (0.7:ℝ) ≤ t.ut)), if_neg (not_lt.mpr h1)]

theorem c1funcB_band2 (t : Time) (h1 : 0.3 ≤ t.ut) (h2 : t.ut < 0.7) : c1funcB t = -1 := by
  rw [c1funcB, if_neg (not_lt.mpr h1), if_pos h2]

theorem c1funcB_band3 (t : Time) (h1 : 0.7 ≤ t.ut) (h2 : t.ut < 0.76) : c1funcB t = -1/14 := by
  rw [c1funcB, if_neg (not_lt.mpr (by linarith : (0.3:ℝ) ≤ t.ut)),
    if_neg (not_lt.mpr h1), if_pos h2]

theorem c1funcB_band4 (t : Time) (h1 : 0.76 ≤ t.ut) : c1funcB t = 1 := by
  rw [c1funcB, if_neg (not_lt.mpr (by linarith : (0.3:ℝ) ≤ t.ut)),
    if_neg (not_lt.mpr (by linarith : (0.7:ℝ) ≤ t.ut)), if_neg (not_lt.mpr h1)]

theorem c1_dt_bounds :
    0.4999994 ≤ (TerrestrialTime 1 - TerrestrialTime 0)/2 ∧
    (TerrestrialTime 1 - TerrestrialTime 0)/2 ≤ 0.5000006 := by
  have h := terrestrialTime_lipschitz 0 1 (by norm_num) (by norm_num) (by norm_num)
  constructor
  · linarith [h.1]
  · linarith [h.2]

/-- Counterexample for C1 as stated: with `c1funcA` on `[Time(0), Time(1)]`
every condition of the specification's `/5` adoption rule holds, yet the
pass does not adopt the tightened window (it bisects). -/
theorem c1_counterexample :
    C1SpecAdopt c1funcA (1/86400000)
        ⟨Time.fromUT 0, Time.fromUT 1, -3, 1, none⟩ ∧
    (SearchStep c1funcA (1/86400000)
        ⟨Time.fromUT 0, Time.fromUT 1, -3, 1, none⟩).isTighten = false := by
  obtain ⟨hD1, hD2⟩ := c1_dt_bounds
  set D := (TerrestrialTime 1 - TerrestrialTime 0)/2 with hD_def
  have hdtu : (1:ℝ) - (0 + D) > 0 := by linarith
  have hfmid : c1funcA ((Time.fromUT 0).AddDays D) = -1 := by
    apply c1funcA_band2 <;> rw [addDays_ut, fromUT_ut] <;> linarith
  have hfq : c1funcA (Time.fromUT (0 + D + 1/2 * (1 - (0 + D)))) = -1/5 := by
    apply c1funcA_band3 <;> rw [fromUT_ut] <;> linarith
  have herrval : |(-1/5 : ℝ) / (2/(1 - (0 + D)))| = (1 - (0 + D))/10 := by
    rw [show ((-1/5 : ℝ) / (2/(1 - (0 + D)))) = -((1 - (0 + D))/10) by
      rw [div_div_eq_mul_div]; ring]
    rw [abs_neg, abs_of_pos (by linarith)]
  have hfleft : c1funcA ((Time.fromUT (0 + D + 1/2 * (1 - (0 + D)))).AddDays
      (-(1.2 * ((1 - (0 + D))/10)))) = -1 := by
    apply c1funcA_band2 <;> rw [addDays_ut, fromUT_ut] <;> linarith
  have hfright : c1funcA ((Time.fromUT (0 + D + 1/2 * (1 - (0 + D)))).AddDays
      (1.2 * ((1 - (0 + D))/10))) = 1 := by
    apply c1funcA_band4
    rw [addDays_ut, fromUT_ut]
    linarith
  constructor
  · refine ⟨0 + D + 1/2 * (1 - (0 + D)), 2/(1 - (0 + D)), ?_, ?_, ?_, ?_, ?_, ?_, ?_, ?_⟩
    · show QuadInterp ((Time.fromUT 0).AddDays (((Time.fromUT 1).tt - (Time.fromUT 0).tt)/2)).ut
          ((Time.fromUT 1).ut - ((Time.fromUT 0).AddDays (((Time.fromUT 1).tt - (Time.fromUT 0).tt)/2)).ut)
          (-3) ((Option.getD none (c1funcA ((Time.fromUT 0).AddDays (((Time.fromUT 1).tt - (Time.fromUT 0).tt)/2)))))
          1 = some (0 + D + 1/2 * (1 - (0 + D)), 2/(1 - (0 + D)))
      rw [fromUT_tt, fromUT_tt, ← hD_def]
      rw [Option.getD, hfmid]
      rw [addDays_ut, fromUT_ut, fromUT_ut]
      exact quadInterp_m3_m1_1 (0 + D) (1 - (0 + D))
    · exact div_ne_zero (by norm_num) (ne_of_gt hdtu)
    · rw [hfq, herrval]
      simp only [not_lt]
      linarith
    · show 1.2 * |c1funcA (Time.fromUT (0 + D + 1/2 * (1 - (0 + D)))) / (2/(1 - (0 + D)))|
          < (((Time.fromUT 1).tt - (Time.fromUT 0).tt)/2)/5
      rw [hfq, herrval, fromUT_tt, fromUT_tt, ← hD_def]
      linarith
    · rw [hfq, herrval]
      show (((Time.fromUT (0 + D + 1/2 * (1 - (0 + D)))).AddDays (-(1.2 * ((1 - (0 + D))/10)))).ut
          - (Time.fromUT 0).ut) * _ < 0
      rw [addDays_ut, fromUT_ut, fromUT_ut, fromUT_ut]
      nlinarith
    · rw [hfq, herrval]
      show (((Time.fromUT (0 + D + 1/2 * (1 - (0 + D)))).AddDays (1.2 * ((1 - (0 + D))/10))).ut
          - (Time.fromUT 0).ut) * _ < 0
      rw [addDays_ut, fromUT_ut, fromUT_ut, fromUT_ut]
      nlinarith
    · rw [hfq, herrval, hfleft]
      norm_num
    · rw [hfq, herrval, hfright]
      norm_num
  · rw [SearchStep]
    rw [if_neg (by
      rw [fromUT_tt, fromUT_tt, ← hD_def, abs_of_pos (by linarith)]
      rw [not_lt]
      linarith)]
    simp only []
    rw [fromUT_tt, fromUT_tt, ← hD_def, Option.getD, hfmid, addDays_ut, fromUT_ut, fromUT_ut]
    rw [quadInterp_m3_m1_1 (0 + D) (1 - (0 + D))]
    simp only []
    rw [if_neg (show ¬ (2/(1 - (0 + D)) = 0) from div_ne_zero (by norm_num) (ne_of_gt hdtu)),
      hfq, herrval]
    rw [if_neg (by rw [not_lt]; linarith)]
    rw [if_neg (by rw [not_lt]; linarith)]
    rw [if_neg (by norm_num)]
    rw [if_pos ⟨by norm_num, by norm_num⟩]
    rfl

/-- Witness for C1 (amended): with `c1funcB` the `/10` condition and the
window conditions all hold, and `c1_tight_window_iff` yields the adopted
tight window. -/
theorem c1_witness :
    (SearchStep c1funcB (1/86400000)
        ⟨Time.fromUT 0, Time.fromUT 1, -3, 1, none⟩).isTighten = true := by
  obtain ⟨hD1, hD2⟩ := c1_dt_bounds
  set D := (TerrestrialTime 1 - TerrestrialTime 0)/2 with hD_def
  have hdtu : (1:ℝ) - (0 + D) > 0 := by linarith
  have hfmid : c1funcB ((Time.fromUT 0).AddDays D) = -1 := by
    apply c1funcB_band2 <;> rw [addDays_ut, fromUT_ut] <;> linarith
  have hfq : c1funcB (Time.fromUT (0 + D + 1/2 * (1 - (0 + D)))) = -1/14 := by
    apply c1funcB_band3 <;> rw [fromUT_ut] <;> linarith
  have herrval : |(-1/14 : ℝ) / (2/(1 - (0 + D)))| = (1 - (0 + D))/28 := by
    rw [show ((-1/14 : ℝ) / (2/(1 - (0 + D)))) = -((1 - (0 + D))/28) by
      rw [div_div_eq_mul_div]; ring]
    rw [abs_neg, abs_of_pos (by linarith)]
  have hdt : ¬ |((Time.fromUT 1).tt - (Time.fromUT 0).tt)/2| < (1/86400000 : ℝ) := by
    rw [fromUT_tt, fromUT_tt, ← hD_def, abs_of_pos (by linarith), not_lt]
    linarith
  have hq : QuadInterp ((Time.fromUT 0).AddDays (((Time.fromUT 1).tt - (Time.fromUT 0).tt)/2)).ut
      ((Time.fromUT 1).ut - ((Time.fromUT 0).AddDays (((Time.fromUT 1).tt - (Time.fromUT 0).tt)/2)).ut)
      (-3) (Option.getD none (c1funcB ((Time.fromUT 0).AddDays (((Time.fromUT 1).tt - (Time.fromUT 0).tt)/2))))
      1 = some (0 + D + 1/2 * (1 - (0 + D)), 2/(1 - (0 + D))) := by
    rw [fromUT_tt, fromUT_tt, ← hD_def, Option.getD, hfmid, addDays_ut, fromUT_ut, fromUT_ut]
    exact quadInterp_m3_m1_1 (0 + D) (1 - (0 + D))
  have hq0 : (2/(1 - (0 + D)) : ℝ) ≠ 0 := div_ne_zero (by norm_num) (ne_of_gt hdtu)
  have herr : ¬ |c1funcB (Time.fromUT (0 + D + 1/2 * (1 - (0 + D)))) / (2/(1 - (0 + D)))|
      < (1/86400000 : ℝ) := by
    rw [hfq, herrval, not_lt]
    linarith
  have key := (c1_tight_window_iff c1funcB (1/86400000)
      ⟨Time.fromUT 0, Time.fromUT 1, -3, 1, none⟩
      (0 + D + 1/2 * (1 - (0 + D))) (2/(1 - (0 + D))) hdt hq hq0 herr).mpr ?_
  · rw [key]
    rfl
  · refine ⟨?_, ?_, ?_, ?_, ?_⟩
    · show 1.2 * |c1funcB (Time.fromUT (0 + D + 1/2 * (1 - (0 + D)))) / (2/(1 - (0 + D)))|
          < (((Time.fromUT 1).tt - (Time.fromUT 0).tt)/2)/10
      rw [hfq, herrval, fromUT_tt, fromUT_tt, ← hD_def]
      linarith
    · show (((Time.fromUT (0 + D + 1/2 * (1 - (0 + D)))).AddDays
            (-(1.2 * |c1funcB (Time.fromUT (0 + D + 1/2 * (1 - (0 + D)))) / (2/(1 - (0 + D)))|))).ut
          - (Time.fromUT 0).ut) * _ < 0
      rw [hfq, herrval, addDays_ut, fromUT_ut, fromUT_ut, fromUT_ut]
      nlinarith
    · show (((Time.fromUT (0 + D + 1/2 * (1 - (0 + D)))).AddDays
            (1.2 * |c1funcB (Time.fromUT (0 + D + 1/2 * (1 - (0 + D)))) / (2/(1 - (0 + D)))|)).ut
          - (Time.fromUT 0).ut) * _ < 0
      rw [hfq, herrval, addDays_ut, fromUT_ut, fromUT_ut, fromUT_ut]
      nlinarith
    · show c1funcB ((Time.fromUT (0 + D + 1/2 * (1 - (0 + D)))).AddDays
          (-(1.2 * |c1funcB (Time.fromUT (0 + D + 1/2 * (1 - (0 + D)))) / (2/(1 - (0 + D)))|))) < 0
      rw [hfq, herrval]
      rw [show c1funcB ((Time.fromUT (0 + D + 1/2 * (1 - (0 + D)))).AddDays
          (-(1.2 * ((1 - (0 + D))/28)))) = -1/14 from
        c1funcB_band3 _ (by rw [addDays_ut, fromUT_ut]; linarith)
          (by rw [addDays_ut, fromUT_ut]; linarith)]
      norm_num
    · show (0:ℝ) ≤ c1funcB ((Time.fromUT (0 + D + 1/2 * (1 - (0 + D)))).AddDays
          (1.2 * |c1funcB (Time.fromUT (0 + D + 1/2 * (1 - (0 + D)))) / (2/(1 - (0 + D)))|))
      rw [hfq, herrval]
      rw [show c1funcB ((Time.fromUT (0 + D + 1/2 * (1 - (0 + D)))).AddDays
          (1.2 * ((1 - (0 + D))/28))) = 1 from
        c1funcB_band4 _ (by rw [addDays_ut, fromUT_ut]; linarith)]
      norm_num

theorem longitudeOffset_eq_self (x : ℝ) (h1 : -180 < x) (h2 : x ≤ 180) :
    LongitudeOffset x = x := by
  rw [LongitudeOffset]
  have hc : ⌈(x - 180) / 360⌉ = 0 := by
    rw [Int.ceil_eq_iff]
    constructor
    · push_cast
      rw [lt_div_iff₀ (by norm_num : (0:ℝ) < 360)]
      linarith
    · push_cast
      rw [div_le_iff₀ (by norm_num : (0:ℝ) < 360)]
      linarith
  rw [hc]
  ring

theorem c7phase_band1 (t : Time) (h : t.ut < 1) : c7phase t = -36 := if_pos h

theorem c7phase_band2 (t : Time) (h1 : 1 ≤ t.ut) (h2 : t.ut < 1.6) : c7phase t = -3 := by
  rw [c7phase, if_neg (not_lt.mpr h1), if_pos h2]

theorem c7phase_band3 (t : Time) (h1 : 1.6 ≤ t.ut) (h2 : t.ut < 1.85) : c7phase t = -1 := by
  rw [c7phase, if_neg (not_lt.mpr (by linarith : (1:ℝ) ≤ t.ut)), if_neg (not_lt.mpr h1), if_pos h2]

theorem c7phase_band4 (t : Time) (h1 : 1.85 ≤ t.ut) (h2 : t.ut < 1.95) : c7phase t = 0 := by
  rw [c7phase, if_neg (not_lt.mpr (by linarith : (1:ℝ) ≤ t.ut)),
    if_neg (not_lt.mpr (by linarith : (1.6:ℝ) ≤ t.ut)), if_neg (not_lt.mpr h1), if_pos h2]

theorem c7phase_band5 (t : Time) (h1 : 1.95 ≤ t.ut) : c7phase t = 1 := by
  rw [c7phase, if_neg (not_lt.mpr (by linarith : (1:ℝ) ≤ t.ut)),
    if_neg (not_lt.mpr (by linarith : (1.6:ℝ) ≤ t.ut)),
    if_neg (not_lt.mpr (by linarith : (1.85:ℝ) ≤ t.ut)), if_neg (not_lt.mpr h1)]

theorem c7offset_band1 (t : Time) (h : t.ut < 1) : moon_offset c7phase 0 t = -36 := by
  rw [moon_offset, sub_zero, c7phase_band1 t h]
  exact longitudeOffset_eq_self _ (by norm_num) (by norm_num)

theorem c7offset_band2 (t : Time) (h1 : 1 ≤ t.ut) (h2 : t.ut < 1.6) :
    moon_offset c7phase 0 t = -3 := by
  rw [moon_offset, sub_zero, c7phase_band2 t h1 h2]
  exact longitudeOffset_eq_self _ (by norm_num) (by norm_num)

theorem c7offset_band3 (t : Time) (h1 : 1.6 ≤ t.ut) (h2 : t.ut < 1.85) :
    moon_offset c7phase 0 t = -1 := by
  rw [moon_offset, sub_zero, c7phase_band3 t h1 h2]
  exact longitudeOffset_eq_self _ (by norm_num) (by norm_num)

theorem c7offset_band4 (t : Time) (h1 : 1.85 ≤ t.ut) (h2 : t.ut < 1.95) :
    moon_offset c7phase 0 t = 0 := by
  rw [moon_offset, sub_zero, c7phase_band4 t h1 h2]
  exact longitudeOffset_eq_self _ (by norm_num) (by norm_num)

theorem c7offset_band5 (t : Time) (h1 : 1.95 ≤ t.ut) : moon_offset c7phase 0 t = 1 := by
  rw [moon_offset, sub_zero, c7phase_band5 t h1]
  exact longitudeOffset_eq_self _ (by norm_num) (by norm_num)

theorem searchMoonPhase_window (mp : Time → ℝ) (targetLon : ℝ)
    (startTime : Time) (limitDays : ℝ) :
    (-(29.530588 * (if moon_offset mp targetLon startTime > 0
            then moon_offset mp targetLon startTime - 360.0
            else moon_offset mp targetLon startTime)) / 360.0 - 1.5 > limitDays
        → SearchMoonPhase mp targetLon startTime limitDays = .ok none) ∧
    (¬ (-(29.530588 * (if moon_offset mp targetLon startTime > 0
            then moon_offset mp targetLon startTime - 360.0
            else moon_offset mp targetLon startTime)) / 360.0 - 1.5 > limitDays)
        → SearchMoonPhase mp targetLon startTime limitDays
          = Search (moon_offset mp targetLon)
              (startTime.AddDays (-(29.530588 * (if moon_offset mp targetLon startTime > 0
                  then moon_offset mp targetLon startTime - 360.0
                  else moon_offset mp targetLon startTime)) / 360.0 - 1.5))
              (startTime.AddDays (min limitDays
                  (-(29.530588 * (if moon_offset mp targetLon startTime > 0
                      then moon_offset mp targetLon startTime - 360.0
                      else moon_offset mp targetLon startTime)) / 360.0 + 1.5)))
              1.0) := by
  constructor
  · intro h
    rw [SearchMoonPhase]
    simp only []
    rw [if_pos h]
  · intro h
    rw [SearchMoonPhase]
    simp only []
    rw [if_neg h]

theorem c7_est_value :
    -(29.530588 * (if moon_offset c7phase 0 (Time.fromUT 0) > 0
        then moon_offset c7phase 0 (Time.fromUT 0) - 360.0
        else moon_offset c7phase 0 (Time.fromUT 0))) / 360.0 = 2.9530588 := by
  have h0 : moon_offset c7phase 0 (Time.fromUT 0) = -36 :=
    c7offset_band1 _ (by rw [fromUT_ut]; norm_num)
  rw [h0]
  norm_num

theorem c7_search_run :
    SearchMoonPhase c7phase 0 (Time.fromUT 0) 2
      = .ok (some (Time.fromUT ((0 + (2.9530588 - 1.5))
          + ((TerrestrialTime (0 + 2) - TerrestrialTime (0 + (2.9530588 - 1.5)))/2)
          + (1/2) * ((0 + 2)
            - ((0 + (2.9530588 - 1.5))
              + ((TerrestrialTime (0 + 2) - TerrestrialTime (0 + (2.9530588 - 1.5)))/2)))))) := by
  have hw := (searchMoonPhase_window c7phase 0 (Time.fromUT 0) 2).2 (by
    rw [c7_est_value]; norm_num)
  rw [c7_est_value] at hw
  rw [hw]
  have hmin : min (2:ℝ) (2.9530588 + 1.5) = 2 := by norm_num
  rw [hmin]
  rw [Search]
  have hd : |(1.0:ℝ) / (24.0 * 3600.0)| = 1/86400 := by
    rw [abs_of_pos (by norm_num)]
    norm_num
  have hf1 : moon_offset c7phase 0 ((Time.fromUT 0).AddDays (2.9530588 - 1.5)) = -3 := by
    apply c7offset_band2 <;> rw [addDays_ut, fromUT_ut] <;> norm_num
  have hf2 : moon_offset c7phase 0 ((Time.fromUT 0).AddDays 2) = 1 := by
    apply c7offset_band5
    rw [addDays_ut, fromUT_ut]
    norm_num
  rw [hd, hf1, hf2]
  -- bounds on the tt half-width of the bracket
  have hlip := terrestrialTime_lipschitz (0 + (2.9530588 - 1.5)) (0 + 2)
    (by norm_num) (by norm_num) (by norm_num)
  set D := (TerrestrialTime (0 + 2) - TerrestrialTime (0 + (2.9530588 - 1.5)))/2 with hD_def
  have hD1 : 0.2734703 ≤ D := by rw [hD_def]; linarith [hlip.1]
  have hD2 : D ≤ 0.2734710 := by rw [hD_def]; linarith [hlip.2]
  rw [SearchLoop]
  have htmidut : (((Time.fromUT 0).AddDays (2.9530588 - 1.5)).AddDays D).ut
      = (0 + (2.9530588 - 1.5)) + D := by
    rw [addDays_ut, addDays_ut, fromUT_ut]
  have hstep : SearchStep (moon_offset c7phase 0) (1/86400)
      ⟨(Time.fromUT 0).AddDays (2.9530588 - 1.5), (Time.fromUT 0).AddDays 2, -3, 1, none⟩
      = .found (Time.fromUT ((0 + (2.9530588 - 1.5)) + D
          + (1/2) * ((0 + 2) - ((0 + (2.9530588 - 1.5)) + D)))) := by
    rw [SearchStep]
    have htt2 : ((Time.fromUT 0).AddDays 2).tt = TerrestrialTime (0 + 2) := rfl
    have htt1 : ((Time.fromUT 0).AddDays (2.9530588 - 1.5)).tt
        = TerrestrialTime (0 + (2.9530588 - 1.5)) := rfl
    rw [htt2, htt1, ← hD_def]
    rw [if_neg (by rw [abs_of_pos (by linarith)]; rw [not_lt]; linarith)]
    simp only []
    have hfmid : moon_offset c7phase 0
        (((Time.fromUT 0).AddDays (2.9530588 - 1.5)).AddDays D) = -1 := by
      apply c7offset_band3 <;> rw [htmidut] <;> linarith
    rw [Option.getD, hfmid, htmidut, addDays_ut, fromUT_ut]
    rw [quadInterp_m3_m1_1 ((0 + (2.9530588 - 1.5)) + D)
      ((0 + 2) - ((0 + (2.9530588 - 1.5)) + D))]
    simp only []
    have hdtu : (0:ℝ) < (0 + 2) - ((0 + (2.9530588 - 1.5)) + D) := by linarith
    rw [if_neg (show ¬ ((2:ℝ)/((0 + 2) - ((0 + (2.9530588 - 1.5)) + D)) = 0) from
      div_ne_zero (by norm_num) (ne_of_gt hdtu))]
    have hfq : moon_offset c7phase 0
        (Time.fromUT ((0 + (2.9530588 - 1.5)) + D
          + (1/2) * ((0 + 2) - ((0 + (2.9530588 - 1.5)) + D)))) = 0 := by
      apply c7offset_band4 <;> rw [fromUT_ut] <;> linarith
    rw [hfq]
    rw [if_pos (by
      rw [zero_div, abs_zero]
      norm_num)]
  rw [hstep]

theorem c7_counterexample :
    (2:ℝ) < -(29.530588 * (if moon_offset c7phase 0 (Time.fromUT 0) > 0
        then moon_offset c7phase 0 (Time.fromUT 0) - 360.0
        else moon_offset c7phase 0 (Time.fromUT 0))) / 360.0 ∧
    SearchMoonPhase c7phase 0 (Time.fromUT 0) 2 ≠ .ok none := by
  constructor
  · rw [c7_est_value]
    norm_num
  · rw [c7_search_run]
    simp

theorem quadInterp_in_range (tm dtu fa fm fb q s : ℝ)
    (h : QuadInterp tm dtu fa fm fb = some (q, s)) : |q - tm| ≤ |dtu| := by
  rw [QuadInterp] at h
  simp only [] at h
  set Q := (fb + fa)/2 - fm with hQdef
  set R := (fb - fa)/2 with hRdef
  set ru := Real.sqrt (R*R - 4*Q*fm) with hrudef
  set x1 := (-R + ru)/(2*Q) with hx1def
  set x2 := (-R - ru)/(2*Q) with hx2def
  by_cases hQ : Q = 0
  · rw [if_pos hQ] at h
    by_cases hR : R = 0
    · rw [if_pos hR] at h
      exact absurd h (by simp)
    · rw [if_neg hR] at h
      by_cases hx : -1 ≤ -fm/R ∧ -fm/R ≤ 1
      · rw [if_pos hx] at h
        simp only [Option.some.injEq, Prod.mk.injEq] at h
        obtain ⟨hq, -⟩ := h
        rw [← hq, show tm + -fm/R*dtu - tm = -fm/R*dtu by ring, abs_mul]
        exact mul_le_of_le_one_left (abs_nonneg _) (abs_le.mpr ⟨hx.1, hx.2⟩)
      · rw [if_neg hx] at h
        exact absurd h (by simp)
  · rw [if_neg hQ] at h
    by_cases hu : R*R - 4*Q*fm ≤ 0
    · rw [if_pos hu] at h
      exact absurd h (by simp)
    · rw [if_neg hu] at h
      by_cases hx1 : -1 ≤ x1 ∧ x1 ≤ 1
      · rw [if_pos hx1] at h
        by_cases hx2 : -1 ≤ x2 ∧ x2 ≤ 1
        · rw [if_pos hx2] at h
          exact absurd h (by simp)
        · rw [if_neg hx2] at h
          simp only [Option.some.injEq, Prod.mk.injEq] at h
          obtain ⟨hq, -⟩ := h
          rw [← hq, show tm + x1*dtu - tm = x1*dtu by ring, abs_mul]
          exact mul_le_of_le_one_left (abs_nonneg _) (abs_le.mpr ⟨hx1.1, hx1.2⟩)
      · rw [if_neg hx1] at h
        by_cases hx2 : -1 ≤ x2 ∧ x2 ≤ 1
        · rw [if_pos hx2] at h
          simp only [Option.some.injEq, Prod.mk.injEq] at h
          obtain ⟨hq, -⟩ := h
          rw [← hq, show tm + x2*dtu - tm = x2*dtu by ring, abs_mul]
          exact mul_le_of_le_one_left (abs_nonneg _) (abs_le.mpr ⟨hx2.1, hx2.2⟩)
        · rw [if_neg hx2] at h
          exact absurd h (by simp)

theorem searchStep_shapes (func : Time → ℝ) (d : ℝ) (t1 t2 : Time)
    (f1 f2 : ℝ) (mc : Option ℝ) :
    SearchStep func d ⟨t1, t2, f1, f2, mc⟩
        = .found (t1.AddDays ((t2.tt - t1.tt)/2)) ∨
    (∃ q s : ℝ, QuadInterp (t1.AddDays ((t2.tt - t1.tt)/2)).ut
        (t2.ut - (t1.AddDays ((t2.tt - t1.tt)/2)).ut) f1
        (mc.getD (func (t1.AddDays ((t2.tt - t1.tt)/2)))) f2 = some (q, s) ∧
      SearchStep func d ⟨t1, t2, f1, f2, mc⟩ = .found (Time.fromUT q)) ∨
    (∃ q s w : ℝ, 0 ≤ w ∧
      QuadInterp (t1.AddDays ((t2.tt - t1.tt)/2)).ut
        (t2.ut - (t1.AddDays ((t2.tt - t1.tt)/2)).ut) f1
        (mc.getD (func (t1.AddDays ((t2.tt - t1.tt)/2)))) f2 = some (q, s) ∧
      (((Time.fromUT q).AddDays (-w)).ut - t1.ut) * (((Time.fromUT q).AddDays (-w)).ut - t2.ut) < 0 ∧
      (((Time.fromUT q).AddDays w).ut - t1.ut) * (((Time.fromUT q).AddDays w).ut - t2.ut) < 0 ∧
      SearchStep func d ⟨t1, t2, f1, f2, mc⟩
        = .tighten ⟨(Time.fromUT q).AddDays (-w), (Time.fromUT q).AddDays w,
            func ((Time.fromUT q).AddDays (-w)), func ((Time.fromUT q).AddDays w),
            some (func (Time.fromUT q))⟩) ∨
    (∃ fm : ℝ, SearchStep func d ⟨t1, t2, f1, f2, mc⟩
        = .bisect ⟨t1, t1.AddDays ((t2.tt - t1.tt)/2), f1, fm, none⟩) ∨
    (∃ fm : ℝ, SearchStep func d ⟨t1, t2, f1, f2, mc⟩
        = .bisect ⟨t1.AddDays ((t2.tt - t1.tt)/2), t2, fm, f2, none⟩) ∨
    SearchStep func d ⟨t1, t2, f1, f2, mc⟩ = .noRoot := by
  rw [SearchStep]
  simp only []
  set dt := (t2.tt - t1.tt)/2 with hdt_def
  set tmid := t1.AddDays dt with htmid_def
  set FM := mc.getD (func tmid) with hFM_def
  by_cases htol : |dt| < d
  · rw [if_pos htol]
    left
    rfl
  · rw [if_neg htol]
    have hfallback :
        (if f1 < 0 ∧ 0 ≤ FM then SearchStepResult.bisect ⟨t1, tmid, f1, FM, none⟩
          else if FM < 0 ∧ 0 ≤ f2 then SearchStepResult.bisect ⟨tmid, t2, FM, f2, none⟩
          else SearchStepResult.noRoot)
          = SearchStepResult.bisect ⟨t1, tmid, f1, FM, none⟩ ∨
        (if f1 < 0 ∧ 0 ≤ FM then SearchStepResult.bisect ⟨t1, tmid, f1, FM, none⟩
          else if FM < 0 ∧ 0 ≤ f2 then SearchStepResult.bisect ⟨tmid, t2, FM, f2, none⟩
          else SearchStepResult.noRoot)
          = SearchStepResult.bisect ⟨tmid, t2, FM, f2, none⟩ ∨
        (if f1 < 0 ∧ 0 ≤ FM then SearchStepResult.bisect ⟨t1, tmid, f1, FM, none⟩
          else if FM < 0 ∧ 0 ≤ f2 then SearchStepResult.bisect ⟨tmid, t2, FM, f2, none⟩
          else SearchStepResult.noRoot)
          = SearchStepResult.noRoot := by
      by_cases hb1 : f1 < 0 ∧ 0 ≤ FM
      · left
        rw [if_pos hb1]
      · rw [if_neg hb1]
        by_cases hb2 : FM < 0 ∧ 0 ≤ f2
        · right; left
          rw [if_pos hb2]
        · right; right
          rw [if_neg hb2]
    cases hq : QuadInterp tmid.ut (t2.ut - tmid.ut) f1 FM f2 with
    | none =>
      rcases hfallback with hf | hf | hf
      · exact Or.inr (Or.inr (Or.inr (Or.inl ⟨FM, hf⟩)))
      · exact Or.inr (Or.inr (Or.inr (Or.inr (Or.inl ⟨FM, hf⟩))))
      · exact Or.inr (Or.inr (Or.inr (Or.inr (Or.inr hf))))
    | some p =>
      obtain ⟨qv, sv⟩ := p
      simp only []
      by_cases hs0 : sv = 0
      · rw [if_pos hs0]
        rcases hfallback with hf | hf | hf
        · exact Or.inr (Or.inr (Or.inr (Or.inl ⟨FM, hf⟩)))
        · exact Or.inr (Or.inr (Or.inr (Or.inr (Or.inl ⟨FM, hf⟩))))
        · exact Or.inr (Or.inr (Or.inr (Or.inr (Or.inr hf))))
      · rw [if_neg hs0]
        by_cases hg : |func (Time.fromUT qv) / sv| < d
        · rw [if_pos hg]
          exact Or.inr (Or.inl ⟨qv, sv, rfl, rfl⟩)
        · rw [if_neg hg]
          by_cases h10 : 1.2 * |func (Time.fromUT qv) / sv| < dt / 10
          · rw [if_pos h10]
            by_cases hL : (((Time.fromUT qv).AddDays (-(1.2 * |func (Time.fromUT qv) / sv|))).ut - t1.ut)
                * (((Time.fromUT qv).AddDays (-(1.2 * |func (Time.fromUT qv) / sv|))).ut - t2.ut) < 0
            · rw [if_pos hL]
              by_cases hR : (((Time.fromUT qv).AddDays (1.2 * |func (Time.fromUT qv) / sv|)).ut - t1.ut)
                  * (((Time.fromUT qv).AddDays (1.2 * |func (Time.fromUT qv) / sv|)).ut - t2.ut) < 0
              · rw [if_pos hR]
                by_cases hsgn : func ((Time.fromUT qv).AddDays (-(1.2 * |func (Time.fromUT qv) / sv|))) < 0
                    ∧ 0 ≤ func ((Time.fromUT qv).AddDays (1.2 * |func (Time.fromUT qv) / sv|))
                · rw [if_pos hsgn]
                  refine Or.inr (Or.inr (Or.inl ⟨qv, sv, 1.2 * |func (Time.fromUT qv) / sv|,
                    by positivity, rfl, hL, hR, rfl⟩))
                · rw [if_neg hsgn]
                  rcases hfallback with hf | hf | hf
                  · exact Or.inr (Or.inr (Or.inr (Or.inl ⟨FM, hf⟩)))
                  · exact Or.inr (Or.inr (Or.inr (Or.inr (Or.inl ⟨FM, hf⟩))))
                  · exact Or.inr (Or.inr (Or.inr (Or.inr (Or.inr hf))))
              · rw [if_neg hR]
                rcases hfallback with hf | hf | hf
                · exact Or.inr (Or.inr (Or.inr (Or.inl ⟨FM, hf⟩)))
                · exact Or.inr (Or.inr (Or.inr (Or.inr (Or.inl ⟨FM, hf⟩))))
                · exact Or.inr (Or.inr (Or.inr (Or.inr (Or.inr hf))))
            · rw [if_neg hL]
              rcases hfallback with hf | hf | hf
              · exact Or.inr (Or.inr (Or.inr (Or.inl ⟨FM, hf⟩)))
              · exact Or.inr (Or.inr (Or.inr (Or.inr (Or.inl ⟨FM, hf⟩))))
              · exact Or.inr (Or.inr (Or.inr (Or.inr (Or.inr hf))))
          · rw [if_neg h10]
            rcases hfallback with hf | hf | hf
            · exact Or.inr (Or.inr (Or.inr (Or.inl ⟨FM, hf⟩)))
            · exact Or.inr (Or.inr (Or.inr (Or.inr (Or.inl ⟨FM, hf⟩))))
            · exact Or.inr (Or.inr (Or.inr (Or.inr (Or.inr hf))))

theorem between_of_mul_neg (a b x : ℝ) (hab : a ≤ b)
    (h : (x - a) * (x - b) < 0) : a < x ∧ x < b := by
  constructor
  · by_contra hc
    push_neg at hc
    nlinarith
  · by_contra hc
    push_neg at hc
    nlinarith

theorem longitudeOffset_range (x : ℝ) :
    -180 < LongitudeOffset x ∧ LongitudeOffset x ≤ 180 := by
  rw [LongitudeOffset]
  have h1 : ((x - 180)/360 : ℝ) ≤ ⌈(x - 180)/360⌉ := Int.le_ceil _
  have h2 : ((⌈(x - 180)/360⌉ : ℤ) : ℝ) < (x - 180)/360 + 1 := Int.ceil_lt_add_one _
  constructor
  · nlinarith
  · nlinarith

theorem searchLoop_confine (func : Time → ℝ) (d B C : ℝ)
    (H : ∀ u v : ℝ, B ≤ u → u ≤ v → v ≤ C →
      TerrestrialTime u ≤ TerrestrialTime v ∧
      TerrestrialTime v - TerrestrialTime u ≤ 2 * (v - u)) :
    ∀ (n : ℕ) (t1 t2 : Time) (f1 f2 : ℝ) (mc : Option ℝ) (t : Time),
      B ≤ t1.ut → t1.ut ≤ t2.ut → t2.ut ≤ C →
      t1.tt = TerrestrialTime t1.ut → t2.tt = TerrestrialTime t2.ut →
      SearchLoop func d n ⟨t1, t2, f1, f2, mc⟩ = .ok (some t) →
      2*B - C ≤ t.ut ∧ t.ut ≤ C := by
  intro n
  induction n with
  | zero =>
    intro t1 t2 f1 f2 mc t _ _ _ _ _ h
    rw [SearchLoop] at h
    exact absurd h (by simp)
  | succ n ih =>
    intro t1 t2 f1 f2 mc t hB h12 hC htt1 htt2 h
    rw [SearchLoop] at h
    have hBC : B ≤ C := le_trans hB (le_trans h12 hC)
    have hlip := H t1.ut t2.ut hB h12 hC
    rw [← htt1, ← htt2] at hlip
    have hdt0 : 0 ≤ (t2.tt - t1.tt)/2 := by linarith [hlip.1]
    have hdtle : (t2.tt - t1.tt)/2 ≤ t2.ut - t1.ut := by linarith [hlip.2]
    have hmid_ut : (t1.AddDays ((t2.tt - t1.tt)/2)).ut = t1.ut + (t2.tt - t1.tt)/2 := rfl
    rcases searchStep_shapes func d t1 t2 f1 f2 mc with
      hs | ⟨q, s, hq, hs⟩ | ⟨q, s, w, hw, hq, hL, hR, hs⟩ | ⟨fm, hs⟩ | ⟨fm, hs⟩ | hs
    · rw [hs] at h
      have h2 : Except.ok (some (t1.AddDays ((t2.tt - t1.tt)/2)))
          = (Except.ok (some t) : Except AstroError (Option Time)) := h
      have ht : t = t1.AddDays ((t2.tt - t1.tt)/2) := by
        injection h2 with hx
        injection hx with hy
        exact hy.symm
      rw [ht, hmid_ut]
      constructor
      · linarith
      · linarith
    · rw [hs] at h
      have h2 : Except.ok (some (Time.fromUT q))
          = (Except.ok (some t) : Except AstroError (Option Time)) := h
      have ht : t = Time.fromUT q := by
        injection h2 with hx
        injection hx with hy
        exact hy.symm
      have hqr := quadInterp_in_range _ _ _ _ _ _ _ hq
      rw [hmid_ut] at hqr
      have hd2 : |t2.ut - (t1.ut + (t2.tt - t1.tt)/2)| = t2.ut - (t1.ut + (t2.tt - t1.tt)/2) := by
        rw [abs_of_nonneg]
        linarith
      rw [hd2] at hqr
      rw [abs_le] at hqr
      have htu : t.ut = q := by rw [ht]; rfl
      rw [htu]
      constructor
      · linarith [hqr.1]
      · linarith [hqr.2]
    · rw [hs] at h
      have h2 : SearchLoop func d n
          ⟨(Time.fromUT q).AddDays (-w), (Time.fromUT q).AddDays w,
            func ((Time.fromUT q).AddDays (-w)), func ((Time.fromUT q).AddDays w),
            some (func (Time.fromUT q))⟩ = .ok (some t) := h
      have hbl := between_of_mul_neg t1.ut t2.ut ((Time.fromUT q).AddDays (-w)).ut h12 hL
      have hbr := between_of_mul_neg t1.ut t2.ut ((Time.fromUT q).AddDays w).ut h12 hR
      have hul : ((Time.fromUT q).AddDays (-w)).ut = q + -w := rfl
      have hur : ((Time.fromUT q).AddDays w).ut = q + w := rfl
      refine ih _ _ _ _ _ t ?_ ?_ ?_ rfl rfl h2
      · rw [hul]
        rw [hul] at hbl
        linarith [hbl.1]
      · rw [hul, hur]
        linarith
      · rw [hur]
        rw [hur] at hbr
        linarith [hbr.2]
    · rw [hs] at h
      have h2 : SearchLoop func d n
          ⟨t1, t1.AddDays ((t2.tt - t1.tt)/2), f1, fm, none⟩ = .ok (some t) := h
      refine ih _ _ _ _ _ t hB ?_ ?_ htt1 rfl h2
      · rw [hmid_ut]
        linarith
      · rw [hmid_ut]
        linarith
    · rw [hs] at h
      have h2 : SearchLoop func d n
          ⟨t1.AddDays ((t2.tt - t1.tt)/2), t2, fm, f2, none⟩ = .ok (some t) := h
      refine ih _ _ _ _ _ t ?_ ?_ hC rfl htt2 h2
      · rw [hmid_ut]
        linarith
      · rw [hmid_ut]
        linarith
    · rw [hs] at h
      exact absurd h (by simp)

theorem c7_searchMoonPhase (mp : Time → ℝ) (targetLon : ℝ)
    (startTime : Time) (limitDays : ℝ) :
    (-(29.530588 * (if moon_offset mp targetLon startTime > 0
            then moon_offset mp targetLon startTime - 360.0
            else moon_offset mp targetLon startTime)) / 360.0 - 1.5 > limitDays
        → SearchMoonPhase mp targetLon startTime limitDays = .ok none) ∧
    (¬ (-(29.530588 * (if moon_offset mp targetLon startTime > 0
            then moon_offset mp targetLon startTime - 360.0
            else moon_offset mp targetLon startTime)) / 360.0 - 1.5 > limitDays)
        → SearchMoonPhase mp targetLon startTime limitDays
          = Search (moon_offset mp targetLon)
              (startTime.AddDays (-(29.530588 * (if moon_offset mp targetLon startTime > 0
                  then moon_offset mp targetLon startTime - 360.0
                  else moon_offset mp targetLon startTime)) / 360.0 - 1.5))
              (startTime.AddDays (min limitDays
                  (-(29.530588 * (if moon_offset mp targetLon startTime > 0
                      then moon_offset mp targetLon startTime - 360.0
                      else moon_offset mp targetLon startTime)) / 360.0 + 1.5)))
              1.0) :=
  searchMoonPhase_window mp targetLon startTime limitDays

theorem c7_claim_witness :
    -(29.530588 * (if moon_offset c7constPhase 0 (Time.fromUT 0) > 0
        then moon_offset c7constPhase 0 (Time.fromUT 0) - 360.0
        else moon_offset c7constPhase 0 (Time.fromUT 0))) / 360.0 - 1.5 > 1 ∧
    SearchMoonPhase c7constPhase 0 (Time.fromUT 0) 1 = .ok none := by
  have h0 : moon_offset c7constPhase 0 (Time.fromUT 0) = 10 := by
    rw [moon_offset]
    show LongitudeOffset ((10:ℝ) - 0) = 10
    rw [sub_zero]
    exact longitudeOffset_eq_self 10 (by norm_num) (by norm_num)
  have hgt : -(29.530588 * (if moon_offset c7constPhase 0 (Time.fromUT 0) > 0
      then moon_offset c7constPhase 0 (Time.fromUT 0) - 360.0
      else moon_offset c7constPhase 0 (Time.fromUT 0))) / 360.0 - 1.5 > (1:ℝ) := by
    rw [h0]
    norm_num
  exact ⟨hgt, (c7_searchMoonPhase c7constPhase 0 (Time.fromUT 0) 1).1 hgt⟩

theorem mp8_band1 (t : Time) (h : t.ut < 7) : mp8 t = 45 := if_pos h

theorem mp8_band2 (t : Time) (h1 : 7 ≤ t.ut) (h2 : t.ut < 8.5) : mp8 t = 87 := by
  rw [mp8, if_neg (not_lt.mpr h1), if_pos h2]

theorem mp8_band3 (t : Time) (h1 : 8.5 ≤ t.ut) (h2 : t.ut < 10) : mp8 t = 89 := by
  rw [mp8, if_neg (not_lt.mpr (by linarith : (7:ℝ) ≤ t.ut)), if_neg (not_lt.mpr h1), if_pos h2]

theorem mp8_band4 (t : Time) (h1 : 10 ≤ t.ut) (h2 : t.ut < 10.8) : mp8 t = 90 := by
  rw [mp8, if_neg (not_lt.mpr (by linarith : (7:ℝ) ≤ t.ut)),
    if_neg (not_lt.mpr (by linarith : (8.5:ℝ) ≤ t.ut)), if_neg (not_lt.mpr h1), if_pos h2]

theorem mp8_band5 (t : Time) (h1 : 10.8 ≤ t.ut) : mp8 t = 91 := by
  rw [mp8, if_neg (not_lt.mpr (by linarith : (7:ℝ) ≤ t.ut)),
    if_neg (not_lt.mpr (by linarith : (8.5:ℝ) ≤ t.ut)),
    if_neg (not_lt.mpr (by linarith : (10:ℝ) ≤ t.ut)), if_neg (not_lt.mpr h1)]

theorem mp8off_band2 (t : Time) (h1 : 7 ≤ t.ut) (h2 : t.ut < 8.5) :
    moon_offset mp8 90 t = -3 := by
  rw [moon_offset, mp8_band2 t h1 h2]
  have hx : (87:ℝ) - 90 = -3 := by norm_num
  rw [hx]
  exact longitudeOffset_eq_self _ (by norm_num) (by norm_num)

theorem mp8off_band3 (t : Time) (h1 : 8.5 ≤ t.ut) (h2 : t.ut < 10) :
    moon_offset mp8 90 t = -1 := by
  rw [moon_offset, mp8_band3 t h1 h2]
  have hx : (89:ℝ) - 90 = -1 := by norm_num
  rw [hx]
  exact longitudeOffset_eq_self _ (by norm_num) (by norm_num)

theorem mp8off_band4 (t : Time) (h1 : 10 ≤ t.ut) (h2 : t.ut < 10.8) :
    moon_offset mp8 90 t = 0 := by
  rw [moon_offset, mp8_band4 t h1 h2]
  have hx : (90:ℝ) - 90 = 0 := by norm_num
  rw [hx]
  exact longitudeOffset_eq_self _ (by norm_num) (by norm_num)

theorem mp8off_band5 (t : Time) (h1 : 10.8 ≤ t.ut) : moon_offset mp8 90 t = 1 := by
  rw [moon_offset, mp8_band5 t h1]
  have hx : (91:ℝ) - 90 = 1 := by norm_num
  rw [hx]
  exact longitudeOffset_eq_self _ (by norm_num) (by norm_num)

theorem mp8off_start : moon_offset mp8 90 ((Time.fromUT 0).AddDays 6.0) = -45 := by
  rw [moon_offset, mp8_band1 _ (by rw [addDays_ut, fromUT_ut]; norm_num)]
  have hx : (45:ℝ) - 90 = -45 := by norm_num
  rw [hx]
  exact longitudeOffset_eq_self _ (by norm_num) (by norm_num)

theorem c8_quarter_val : (1 + ⌊mp8 ((Time.fromUT 0).AddDays 6.0) / 90.0⌋) % 4 = 1 := by
  have h45 : mp8 ((Time.fromUT 0).AddDays 6.0) = 45 :=
    mp8_band1 _ (by rw [addDays_ut, fromUT_ut]; norm_num)
  rw [h45]
  have hf : ⌊(45:ℝ)/90.0⌋ = 0 := by
    rw [Int.floor_eq_iff]
    constructor
    · push_cast
      norm_num
    · push_cast
      norm_num
  rw [hf]
  decide

theorem c8_est_value :
    -(29.530588 * (if moon_offset mp8 90 ((Time.fromUT 0).AddDays 6.0) > 0
        then moon_offset mp8 90 ((Time.fromUT 0).AddDays 6.0) - 360.0
        else moon_offset mp8 90 ((Time.fromUT 0).AddDays 6.0))) / 360.0 = 3.6913235 := by
  rw [mp8off_start]
  norm_num

theorem c8_searchMoonPhase_run :
    SearchMoonPhase mp8 90 ((Time.fromUT 0).AddDays 6.0) 10.0
      = .ok (some (Time.fromUT ((0 + 6.0 + (3.6913235 - 1.5))
          + (TerrestrialTime (0 + 6.0 + 5.1913235)
              - TerrestrialTime (0 + 6.0 + (3.6913235 - 1.5)))/2
          + (1/2) * ((0 + 6.0 + 5.1913235)
            - ((0 + 6.0 + (3.6913235 - 1.5))
              + (TerrestrialTime (0 + 6.0 + 5.1913235)
                  - TerrestrialTime (0 + 6.0 + (3.6913235 - 1.5)))/2))))) := by
  have hw := (searchMoonPhase_window mp8 90 ((Time.fromUT 0).AddDays 6.0) 10.0).2 (by
    rw [c8_est_value]; norm_num)
  rw [c8_est_value] at hw
  rw [hw]
  have hmin : min (10.0:ℝ) (3.6913235 + 1.5) = 5.1913235 := by norm_num
  rw [hmin]
  rw [Search]
  have hd : |(1.0:ℝ) / (24.0 * 3600.0)| = 1/86400 := by
    rw [abs_of_pos (by norm_num)]
    norm_num
  have hf1 : moon_offset mp8 90
      (((Time.fromUT 0).AddDays 6.0).AddDays (3.6913235 - 1.5)) = -3 := by
    apply mp8off_band2 <;> rw [addDays_ut, addDays_ut, fromUT_ut] <;> norm_num
  have hf2 : moon_offset mp8 90 (((Time.fromUT 0).AddDays 6.0).AddDays 5.1913235) = 1 := by
    apply mp8off_band5
    rw [addDays_ut, addDays_ut, fromUT_ut]
    norm_num
  rw [hd, hf1, hf2]
  have hlip := terrestrialTime_lipschitz (0 + 6.0 + (3.6913235 - 1.5)) (0 + 6.0 + 5.1913235)
    (by norm_num) (by norm_num) (by norm_num)
  set D := (TerrestrialTime (0 + 6.0 + 5.1913235)
      - TerrestrialTime (0 + 6.0 + (3.6913235 - 1.5)))/2 with hD_def
  have hD1 : 1.4999985 ≤ D := by rw [hD_def]; linarith [hlip.1]
  have hD2 : D ≤ 1.5000015 := by rw [hD_def]; linarith [hlip.2]
  rw [SearchLoop]
  have htmidut : ((((Time.fromUT 0).AddDays 6.0).AddDays (3.6913235 - 1.5)).AddDays D).ut
      = (0 + 6.0 + (3.6913235 - 1.5)) + D := by
    rw [addDays_ut, addDays_ut, addDays_ut, fromUT_ut]
  have hstep : SearchStep (moon_offset mp8 90) (1/86400)
      ⟨((Time.fromUT 0).AddDays 6.0).AddDays (3.6913235 - 1.5),
        ((Time.fromUT 0).AddDays 6.0).AddDays 5.1913235, -3, 1, none⟩
      = .found (Time.fromUT ((0 + 6.0 + (3.6913235 - 1.5)) + D
          + (1/2) * ((0 + 6.0 + 5.1913235) - ((0 + 6.0 + (3.6913235 - 1.5)) + D)))) := by
    rw [SearchStep]
    have htt2 : (((Time.fromUT 0).AddDays 6.0).AddDays 5.1913235).tt
        = TerrestrialTime (0 + 6.0 + 5.1913235) := rfl
    have htt1 : (((Time.fromUT 0).AddDays 6.0).AddDays (3.6913235 - 1.5)).tt
        = TerrestrialTime (0 + 6.0 + (3.6913235 - 1.5)) := rfl
    rw [htt2, htt1, ← hD_def]
    rw [if_neg (by rw [abs_of_pos (by linarith)]; rw [not_lt]; linarith)]
    simp only []
    have hfmid : moon_offset mp8 90
        ((((Time.fromUT 0).AddDays 6.0).AddDays (3.6913235 - 1.5)).AddDays D) = -1 := by
      apply mp8off_band3 <;> rw [htmidut] <;> linarith
    rw [Option.getD, hfmid, htmidut, addDays_ut, addDays_ut, fromUT_ut]
    rw [quadInterp_m3_m1_1 ((0 + 6.0 + (3.6913235 - 1.5)) + D)
      ((0 + 6.0 + 5.1913235) - ((0 + 6.0 + (3.6913235 - 1.5)) + D))]
    simp only []
    have hdtu : (0:ℝ) < (0 + 6.0 + 5.1913235) - ((0 + 6.0 + (3.6913235 - 1.5)) + D) := by
      linarith
    rw [if_neg (show ¬ ((2:ℝ)/((0 + 6.0 + 5.1913235)
        - ((0 + 6.0 + (3.6913235 - 1.5)) + D)) = 0) from
      div_ne_zero (by norm_num) (ne_of_gt hdtu))]
    have hfq : moon_offset mp8 90
        (Time.fromUT ((0 + 6.0 + (3.6913235 - 1.5)) + D
          + (1/2) * ((0 + 6.0 + 5.1913235) - ((0 + 6.0 + (3.6913235 - 1.5)) + D)))) = 0 := by
      apply mp8off_band4 <;> rw [fromUT_ut] <;> linarith
    rw [hfq]
    rw [if_pos (by rw [zero_div, abs_zero]; norm_num)]
  rw [hstep]

theorem c8_searchMoonQuarter_run :
    SearchMoonQuarter mp8 ((Time.fromUT 0).AddDays 6.0)
      = .ok ⟨1, Time.fromUT ((0 + 6.0 + (3.6913235 - 1.5))
          + (TerrestrialTime (0 + 6.0 + 5.1913235)
              - TerrestrialTime (0 + 6.0 + (3.6913235 - 1.5)))/2
          + (1/2) * ((0 + 6.0 + 5.1913235)
            - ((0 + 6.0 + (3.6913235 - 1.5))
              + (TerrestrialTime (0 + 6.0 + 5.1913235)
                  - TerrestrialTime (0 + 6.0 + (3.6913235 - 1.5)))/2)))⟩ := by
  rw [SearchMoonQuarter]
  rw [c8_quarter_val]
  have htgt : (90.0:ℝ) * ((1:ℤ):ℝ) = 90 := by norm_num
  rw [htgt]
  rw [c8_searchMoonPhase_run]

theorem c8_run :
    ∃ t : Time, NextMoonQuarter mp8 ⟨0, Time.fromUT 0⟩ = .ok ⟨1, t⟩ := by
  refine ⟨Time.fromUT ((0 + 6.0 + (3.6913235 - 1.5))
      + (TerrestrialTime (0 + 6.0 + 5.1913235)
          - TerrestrialTime (0 + 6.0 + (3.6913235 - 1.5)))/2
      + (1/2) * ((0 + 6.0 + 5.1913235)
        - ((0 + 6.0 + (3.6913235 - 1.5))
          + (TerrestrialTime (0 + 6.0 + 5.1913235)
              - TerrestrialTime (0 + 6.0 + (3.6913235 - 1.5)))/2))), ?_⟩
  rw [NextMoonQuarter]
  have hproj : (⟨0, Time.fromUT 0⟩ : MoonQuarter).time = Time.fromUT 0 := rfl
  rw [hproj]
  rw [c8_searchMoonQuarter_run]
  rfl

theorem searchMoonPhase_result_bounds (mp : Time → ℝ) (tgt : ℝ) (time0 t : Time)
    (H0 : ∀ u v : ℝ, time0.ut - 1.5 ≤ u → u ≤ v → v ≤ time0.ut + 10 →
      TerrestrialTime u ≤ TerrestrialTime v ∧
      TerrestrialTime v - TerrestrialTime u ≤ 2 * (v - u))
    (hmp : SearchMoonPhase mp tgt time0 10.0 = .ok (some t)) :
    time0.ut - 4.5 ≤ t.ut ∧ t.ut ≤ time0.ut + 10 := by
  rw [SearchMoonPhase] at hmp
  simp only [] at hmp
  set ya0 := moon_offset mp tgt time0 with hya0_def
  set ya := if ya0 > 0 then ya0 - 360.0 else ya0 with hya_def
  set est := -(29.530588 * ya) / 360.0 with hest_def
  have hya0r : -180 < ya0 ∧ ya0 ≤ 180 := by
    rw [hya0_def, moon_offset]
    exact longitudeOffset_range _
  have hyar : -360 < ya ∧ ya ≤ 0 := by
    rw [hya_def]
    by_cases hpos : ya0 > 0
    · rw [if_pos hpos]
      constructor <;> linarith [hya0r.1, hya0r.2]
    · rw [if_neg hpos]
      push_neg at hpos
      constructor <;> linarith [hya0r.1]
  have hestr : 0 ≤ est ∧ est < 29.530588 := by
    rw [hest_def]
    constructor
    · apply div_nonneg _ (by norm_num)
      nlinarith [hyar.2]
    · rw [div_lt_iff₀ (by norm_num : (0:ℝ) < 360.0)]
      nlinarith [hyar.1]
  by_cases hd1 : est - 1.5 > 10.0
  · rw [if_pos hd1] at hmp
    exact absurd hmp (by simp)
  · rw [if_neg hd1] at hmp
    push_neg at hd1
    rw [Search] at hmp
    have ht1ut : (time0.AddDays (est - 1.5)).ut = time0.ut + (est - 1.5) := rfl
    have ht2ut : (time0.AddDays (min 10.0 (est + 1.5))).ut
        = time0.ut + min 10.0 (est + 1.5) := rfl
    have hminle : min (10.0:ℝ) (est + 1.5) ≤ est + 1.5 := min_le_right _ _
    have hminle10 : min (10.0:ℝ) (est + 1.5) ≤ 10.0 := min_le_left _ _
    have hminge : est - 1.5 ≤ min 10.0 (est + 1.5) := le_min (by linarith) (by linarith)
    have H1 : ∀ u v : ℝ, time0.ut + (est - 1.5) ≤ u → u ≤ v →
        v ≤ time0.ut + min 10.0 (est + 1.5) →
        TerrestrialTime u ≤ TerrestrialTime v ∧
        TerrestrialTime v - TerrestrialTime u ≤ 2 * (v - u) := by
      intro u v hu huv hv
      exact H0 u v (by linarith [hestr.1]) huv (by linarith)
    have hconf := searchLoop_confine (moon_offset mp tgt) (|1.0 / (24.0 * 3600.0)|)
      (time0.ut + (est - 1.5)) (time0.ut + min 10.0 (est + 1.5)) H1 20
      (time0.AddDays (est - 1.5)) (time0.AddDays (min 10.0 (est + 1.5)))
      (moon_offset mp tgt (time0.AddDays (est - 1.5)))
      (moon_offset mp tgt (time0.AddDays (min 10.0 (est + 1.5)))) none t
      (by rw [ht1ut]) (by rw [ht1ut, ht2ut]; linarith) (by rw [ht2ut]) rfl rfl hmp
    obtain ⟨hlo, hhi⟩ := hconf
    constructor
    · linarith [hestr.1]
    · linarith

theorem searchMoonQuarter_time_bounds (mp : Time → ℝ) (time0 : Time) (nmq : MoonQuarter)
    (H0 : ∀ u v : ℝ, time0.ut - 1.5 ≤ u → u ≤ v → v ≤ time0.ut + 10 →
      TerrestrialTime u ≤ TerrestrialTime v ∧
      TerrestrialTime v - TerrestrialTime u ≤ 2 * (v - u))
    (hsq : SearchMoonQuarter mp time0 = .ok nmq) :
    time0.ut - 4.5 ≤ nmq.time.ut ∧ nmq.time.ut ≤ time0.ut + 10 := by
  rw [SearchMoonQuarter] at hsq
  split at hsq
  · exact absurd hsq (by simp)
  · exact absurd hsq (by simp)
  · rename_i time heq
    have hb := searchMoonPhase_result_bounds mp _ time0 time H0 heq
    have hnm : nmq.time = time := by
      injection hsq with hx
      rw [← hx]
    rw [hnm]
    exact hb

theorem c8_nextMoonQuarter (mp : Time → ℝ) (mq next : MoonQuarter)
    (H : ∀ u v : ℝ, mq.time.ut + 4.5 ≤ u → u ≤ v → v ≤ mq.time.ut + 16 →
      TerrestrialTime u ≤ TerrestrialTime v ∧
      TerrestrialTime v - TerrestrialTime u ≤ 2 * (v - u))
    (h : NextMoonQuarter mp mq = .ok next) :
    (next.quarter - mq.quarter) % 4 = 1 ∧ mq.time.ut < next.time.ut := by
  rw [NextMoonQuarter] at h
  split at h
  · exact absurd h (by simp)
  · rename_i nmq heq
    split at h
    · exact absurd h (by simp)
    · rename_i hguard
      push_neg at hguard
      have hnext : next = nmq := by
        injection h with hx
        exact hx.symm
      subst hnext
      have h6 : (mq.time.AddDays 6.0).ut = mq.time.ut + 6.0 := rfl
      constructor
      · rw [hguard]
        omega
      · have H0 : ∀ u v : ℝ, (mq.time.AddDays 6.0).ut - 1.5 ≤ u → u ≤ v →
            v ≤ (mq.time.AddDays 6.0).ut + 10 →
            TerrestrialTime u ≤ TerrestrialTime v ∧
            TerrestrialTime v - TerrestrialTime u ≤ 2 * (v - u) := by
          intro u v hu huv hv
          rw [h6] at hu hv
          exact H u v (by linarith) huv (by linarith)
        have hb := searchMoonQuarter_time_bounds mp (mq.time.AddDays 6.0) next H0 heq
        rw [h6] at hb
        linarith [hb.1]

theorem c8_witness :
    ∃ next : MoonQuarter,
      NextMoonQuarter mp8 ⟨0, Time.fromUT 0⟩ = .ok next ∧
      (next.quarter - (⟨0, Time.fromUT 0⟩ : MoonQuarter).quarter) % 4 = 1 ∧
      (⟨0, Time.fromUT 0⟩ : MoonQuarter).time.ut < next.time.ut := by
  obtain ⟨t, hrun⟩ := c8_run
  have H : ∀ u v : ℝ, (⟨0, Time.fromUT 0⟩ : MoonQuarter).time.ut + 4.5 ≤ u → u ≤ v →
      v ≤ (⟨0, Time.fromUT 0⟩ : MoonQuarter).time.ut + 16 →
      TerrestrialTime u ≤ TerrestrialTime v ∧
      TerrestrialTime v - TerrestrialTime u ≤ 2 * (v - u) := by
    intro u v hu huv hv
    have h0 : (⟨0, Time.fromUT 0⟩ : MoonQuarter).time.ut = 0 := rfl
    rw [h0] at hu hv
    have hlip := terrestrialTime_lipschitz u v (by linarith) huv (by linarith)
    constructor
    · linarith [hlip.1]
    · linarith [hlip.2]
  have hmain := c8_nextMoonQuarter mp8 ⟨0, Time.fromUT 0⟩ ⟨1, t⟩ H hrun
  exact ⟨⟨1, t⟩, hrun, hmain.1, hmain.2⟩

theorem c3_angleBetween (a b : Vector) (h : a.Length * b.Length < 1.0e-8) :
    AngleBetween a b = .errorObject .badVector ∧
    ∀ x : ℝ, AngleBetween a b ≠ .angle x := by
  have he : AngleBetween a b = .errorObject .badVector := by
    rw [AngleBetween]
    simp only []
    rw [if_pos h]
  exact ⟨he, fun x => by rw [he]; simp⟩

theorem c3_witness :
    (Vector.Length ⟨0, 0, 0, Time.fromUT 0⟩) * (Vector.Length ⟨0, 0, 0, Time.fromUT 0⟩)
        < 1.0e-8 ∧
    AngleBetween ⟨0, 0, 0, Time.fromUT 0⟩ ⟨0, 0, 0, Time.fromUT 0⟩
        = .errorObject .badVector ∧
    ∀ x : ℝ, AngleBetween ⟨0, 0, 0, Time.fromUT 0⟩ ⟨0, 0, 0, Time.fromUT 0⟩ ≠ .angle x := by
  have hL : Vector.Length ⟨0, 0, 0, Time.fromUT 0⟩ = 0 := by
    rw [Vector.Length]
    rw [show ((0:ℝ)^2 + 0^2 + 0^2) = 0 by norm_num, Real.sqrt_zero]
  have h : (Vector.Length ⟨0, 0, 0, Time.fromUT 0⟩)
      * (Vector.Length ⟨0, 0, 0, Time.fromUT 0⟩) < 1.0e-8 := by
    rw [hL]
    norm_num
  exact ⟨h, c3_angleBetween _ _ h⟩

theorem c4_pivot (R : RotationMatrix) (axis : ℤ) (angle : ℝ) :
    (¬ (axis = 0 ∨ axis = 1 ∨ axis = 2) →
      Pivot R axis angle
          = .error (.baseError ("Invalid axis " ++ toString axis ++ ". Must be [0, 1, 2].")) ∧
      ∀ e : AstroError, Pivot R axis angle = .error e → e ≠ .badAxis) ∧
    ((axis = 0 ∨ axis = 1 ∨ axis = 2) →
      ∃ M : RotationMatrix, Pivot R axis angle = .ok M) := by
  constructor
  · intro h
    have heq : Pivot R axis angle
        = .error (.baseError ("Invalid axis " ++ toString axis ++ ". Must be [0, 1, 2].")) := by
      rw [Pivot]
      rw [if_pos h]
    refine ⟨heq, ?_⟩
    intro e he
    rw [heq] at he
    have h2 : AstroError.baseError ("Invalid axis " ++ toString axis ++ ". Must be [0, 1, 2].") = e := by
      injection he
    rw [← h2]
    simp
  · intro h
    rw [Pivot]
    rw [if_neg (not_not_intro h)]
    exact ⟨_, rfl⟩

theorem c4_counterexample :
    Pivot IdentityMatrix 3 0 = .error (.baseError "Invalid axis 3. Must be [0, 1, 2].") ∧
    ∀ e : AstroError, Pivot IdentityMatrix 3 0 = .error e → e ≠ .badAxis := by
  have hs : "Invalid axis " ++ toString (3:ℤ) ++ ". Must be [0, 1, 2]."
      = "Invalid axis 3. Must be [0, 1, 2]." := by decide
  have heq : Pivot IdentityMatrix 3 0
      = .error (.baseError "Invalid axis 3. Must be [0, 1, 2].") := by
    rw [Pivot]
    rw [if_pos (by decide)]
    rw [hs]
  refine ⟨heq, ?_⟩
  intro e he
  rw [heq] at he
  have h2 : AstroError.baseError "Invalid axis 3. Must be [0, 1, 2]." = e := by
    injection he
  rw [← h2]
  simp

theorem c4_witness :
    Pivot IdentityMatrix 3 0
        = .error (.baseError ("Invalid axis " ++ toString (3:ℤ) ++ ". Must be [0, 1, 2].")) ∧
    ∃ M : RotationMatrix, Pivot IdentityMatrix 1 0 = .ok M :=
  ⟨((c4_pivot IdentityMatrix 3 0).1 (by decide)).1,
   (c4_pivot IdentityMatrix 1 0).2 (by decide)⟩

theorem c5_make (year month day hour minute : ℤ) (second : ℚ)
    (h : ¬ datetimeValid year month day hour minute
        ⌊second - (roundHalfEven (fmod1 second * 1000000) : ℚ) / 1000000⌋
        (roundHalfEven (fmod1 second * 1000000))) :
    Time.Make year month day hour minute second = .error .valueError ∧
    Time.Make year month day hour minute second ≠ .error .dateTimeFormat := by
  have heq : Time.Make year month day hour minute second = .error .valueError := by
    rw [Time.Make]
    rw [if_neg h]
  refine ⟨heq, ?_⟩
  rw [heq]
  simp

theorem fmod1_zero : fmod1 (0:ℚ) = 0 := by
  rw [fmod1, if_pos le_rfl, Int.floor_zero]
  norm_num

theorem roundHalfEven_c5zero : roundHalfEven (fmod1 0 * 1000000) = 0 := by
  rw [fmod1_zero]
  rw [show ((0:ℚ) * 1000000) = 0 by norm_num]
  rw [roundHalfEven, Int.floor_zero]
  rw [if_pos (by norm_num)]

theorem floor_c5zero :
    ⌊(0:ℚ) - (roundHalfEven (fmod1 0 * 1000000) : ℚ) / 1000000⌋ = 0 := by
  rw [roundHalfEven_c5zero]
  rw [show ((0:ℚ) - ((0:ℤ):ℚ) / 1000000) = 0 by push_cast; ring]
  exact Int.floor_zero

theorem c5_witness :
    ¬ datetimeValid 2000 13 1 0 0
        ⌊(0:ℚ) - (roundHalfEven (fmod1 0 * 1000000) : ℚ) / 1000000⌋
        (roundHalfEven (fmod1 0 * 1000000)) ∧
    Time.Make 2000 13 1 0 0 0 = .error .valueError ∧
    Time.Make 2000 13 1 0 0 0 ≠ .error .dateTimeFormat := by
  have h : ¬ datetimeValid 2000 13 1 0 0
      ⌊(0:ℚ) - (roundHalfEven (fmod1 0 * 1000000) : ℚ) / 1000000⌋
      (roundHalfEven (fmod1 0 * 1000000)) := by
    rw [floor_c5zero, roundHalfEven_c5zero]
    decide
  exact ⟨h, c5_make 2000 13 1 0 0 0 h⟩

theorem floor_c5a : ⌊(60.4999999:ℚ)⌋ = 60 := by
  rw [Int.floor_eq_iff]
  constructor
  · push_cast
    norm_num
  · push_cast
    norm_num

theorem fmod1_c5sixty : fmod1 (60.4999999:ℚ) = 0.4999999 := by
  rw [fmod1, if_pos (by norm_num), floor_c5a]
  norm_num

theorem floor_c5b : ⌊(499999.9:ℚ)⌋ = 499999 := by
  rw [Int.floor_eq_iff]
  constructor
  · push_cast
    norm_num
  · push_cast
    norm_num

theorem roundHalfEven_c5sixty :
    roundHalfEven (fmod1 60.4999999 * 1000000) = 500000 := by
  rw [fmod1_c5sixty]
  rw [show ((0.4999999:ℚ) * 1000000) = 499999.9 by norm_num]
  rw [roundHalfEven, floor_c5b]
  rw [if_neg (by push_cast; norm_num), if_pos (by push_cast; norm_num)]
  norm_num

theorem floor_c5sixty :
    ⌊(60.4999999:ℚ) - (roundHalfEven (fmod1 60.4999999 * 1000000) : ℚ) / 1000000⌋ = 59 := by
  rw [roundHalfEven_c5sixty]
  rw [Int.floor_eq_iff]
  constructor
  · push_cast
    norm_num
  · push_cast
    norm_num

theorem c5_counterexample :
    ¬ ((0:ℚ) ≤ 60.4999999 ∧ (60.4999999:ℚ) < 60) ∧
    ∀ e : AstroError, Time.Make 2000 1 1 0 0 60.4999999 ≠ .error e := by
  constructor
  · intro hc
    have := hc.2
    norm_num at this
  · intro e hc
    rw [Time.Make] at hc
    rw [floor_c5sixty, roundHalfEven_c5sixty] at hc
    rw [if_pos (by decide)] at hc
    exact absurd hc (by simp)

theorem c9_refraction_out_of_range (refraction : Refraction) (altitude : ℝ) (fuel : ℕ)
    (h : altitude < -90.0 ∨ altitude > 90.0) :
    RefractionAngle refraction altitude = 0.0 ∧
    InverseRefractionAngle refraction altitude fuel = some 0.0 := by
  constructor
  · rw [RefractionAngle]
    rw [if_pos h]
  · rw [InverseRefractionAngle]
    rw [if_pos h]

theorem c9_witness :
    ((91:ℝ) < -90.0 ∨ (91:ℝ) > 90.0) ∧
    RefractionAngle .Normal 91 = 0.0 ∧
    InverseRefractionAngle .Normal 91 5 = some 0.0 := by
  have h : (91:ℝ) < -90.0 ∨ (91:ℝ) > 90.0 := Or.inr (by norm_num)
  exact ⟨h, c9_refraction_out_of_range .Normal 91 5 h⟩

theorem c10_geoVector_moon (geoMoon : Time → Vector) (helioVector : Body → Time → Vector)
    (calcEarth : Time → Vector) (t : Time) (ab1 ab2 : Bool) :
    GeoVector geoMoon helioVector calcEarth Body.Moon t ab1
        = GeoVector geoMoon helioVector calcEarth Body.Moon t ab2 ∧
    GeoVector geoMoon helioVector calcEarth Body.Moon t ab1 = .ok (geoMoon t) := by
  have h : ∀ ab : Bool, GeoVector geoMoon helioVector calcEarth Body.Moon t ab
      = .ok (geoMoon t) := by
    intro ab
    rw [GeoVector]
    rw [if_pos rfl]
  exact ⟨(h ab1).trans (h ab2).symm, h ab1⟩

end Astronomy
